import Mathlib

/-!
Shallow embedding of the aline-backend conversational policy engine
(signal classifier, invariant gate, prompt engine length budgets, and
conductance pathway accumulator), together with proofs settling the
frozen claims C1 to C10 about the specification.

Source files embedded:
  src/services/classifier.js        (classifyMessage and its detectors)
  src/services/invariant-gate.js    (two concatenated module versions;
                                     namespaces Gate1 and Gate2 below)
  src/services/prompt-engine.js     (getLengthConstraint)
  src/unnamed/part_002              (conductance accumulator)

JavaScript primitives are modelled as follows: strings are Lean String
values scanned character by character (JS .includes, .startsWith,
.toLowerCase, .trim, .split are re-implemented below on List Char);
JS numbers are Nat for integral weights and Rat for conductance
arithmetic; Math.exp is an explicit function parameter (e : Rat → Rat)
so that every statement quantifies over the transcendental primitive;
regular-expression matching in the invariant gate is an explicit
function parameter (rm : String → String → Option String) taking the
literal regex text and the input and returning match[0], while the two
concrete regexes inside the classifier are compiled by hand to
decidable scanners. Wall-clock fields (gateTimeMs) and the external
database handle are not modelled; the pathway store is a List Pathway
passed explicitly.
-/

namespace AlineSpec

/-! ## String primitives (models of the JavaScript string methods) -/

/-- Boolean prefix test on character lists (model of JS startsWith on the
    character level). -/
def prefB : List Char → List Char → Bool
  | [], _ => true
  | _ :: _, [] => false
  | a :: as, b :: bs => a == b && prefB as bs

/-- Boolean contiguous-substring test: does the first list occur inside the
    second (model of JS String.prototype.includes on the character level). -/
def subB (n : List Char) : List Char → Bool
  | [] => n.isEmpty
  | b :: bs => prefB n (b :: bs) || subB n bs

/-- JS hay.includes(needle). -/
def incl (hay needle : String) : Bool := subB needle.toList hay.toList

/-- JS s.startsWith(p). -/
def jsStartsWith (s p : String) : Bool := prefB p.toList s.toList

/-- JS s.toLowerCase(), modelled as per-character ASCII lowering. -/
def jsToLower (s : String) : String := String.mk (s.toList.map Char.toLower)

/-- JS s.trim(): strip leading and trailing whitespace. -/
def jsTrim (s : String) : String :=
  String.mk (((s.toList.dropWhile Char.isWhitespace).reverse.dropWhile Char.isWhitespace).reverse)

/-- JS s.length (code units; identical to character count on ASCII input). -/
def strLen (s : String) : Nat := s.toList.length

/-- Characters matched by the JS regex dot (anything except line terminators). -/
def dotChar (c : Char) : Bool :=
  c != '\n' && c != '\r' && c.toNat != 8232 && c.toNat != 8233

/-! ## Signal classifier — src/services/classifier.js -/

/-- One matched (category, keyword, description) record pushed into the
    detected list of a dimension detector (classifier.js lines 119 to 208). -/
structure Marker where
  category : String
  keyword : String
  description : String
deriving DecidableEq, Repr

/-- Result of one dimension detector: capped score plus explainability lists. -/
structure DimScore where
  score : Rat
  categories : List String
  markers : List Marker
deriving DecidableEq, Repr

/-- Generic scan of a (category, description, keywords) table: the first
    matching keyword of each category adds the fixed increment to the score
    and records the category (the for/break loop shared by detectPsychology,
    detectSociology and detectPhysiology). -/
def scanTable (lower : String) (inc : Rat) (table : List (String × String × List String)) :
    DimScore :=
  table.foldl
    (fun acc entry =>
      match entry.2.2.find? (fun kw => incl lower kw) with
      | some kw =>
          { score := acc.score + inc
            categories := acc.categories ++ [entry.1]
            markers := acc.markers ++ [{ category := entry.1, keyword := kw,
                                         description := entry.2.1 }] }
      | none => acc)
    { score := 0, categories := [], markers := [] }

/-- Psychology marker table (classifier.js lines 121 to 129). -/
def PSYCH_TABLE : List (String × String × List String) :=
  [ ("identity", "identity statement", ["i am", "i\x27m a", "who i am", "type of person"])
  , ("fear", "fear expression", ["afraid", "fear", "terrified", "scared", "anxiety", "panic", "worry", "dread"])
  , ("desire", "desire/longing", ["want", "need", "crave", "wish", "hope", "dream", "long for"])
  , ("trauma", "trauma reference", ["trauma", "abuse", "assault", "died", "death", "lost", "grief", "ptsd", "haunts"])
  , ("shame", "shame/self-judgment", ["ashamed", "embarrassed", "humiliated", "worthless", "stupid", "failure", "hate myself"])
  , ("existential", "existential concern", ["meaningless", "pointless", "what\x27s the point", "nothing matters", "purpose"])
  , ("belief", "core belief", ["i believe", "i think", "i feel like", "i always", "i never"]) ]

/-- Hand compilation of the identity-fusion regex in classifier.js line 146,
    written there as slash i(quote m| am) (a |an |such a |so )slash: the
    lowercased text matches iff it contains one of these eight literals. -/
def identityFusionHit (lower : String) : Bool :=
  [ "i\x27m a ", "i\x27m an ", "i\x27m such a ", "i\x27m so "
  , "i am a ", "i am an ", "i am such a ", "i am so " ].any (fun p => incl lower p)

/-- detectPsychology (classifier.js lines 119 to 153): table scan with
    increment 0.2, an extra 0.3 for the identity-fusion regex, score capped
    at 1. -/
def detectPsychology (message : String) : DimScore :=
  let lower := jsToLower message
  let base := scanTable lower (2/10) PSYCH_TABLE
  let fused :=
    if identityFusionHit lower then
      { score := base.score + 3/10
        categories := base.categories ++ ["identity_fusion"]
        markers := base.markers ++ [{ category := "identity_fusion", keyword := "I am a...",
                                      description := "identity-fused statement" }] }
    else base
  { fused with score := min fused.score 1 }

/-- Sociology marker table (classifier.js lines 157 to 163). -/
def SOCIO_TABLE : List (String × String × List String) :=
  [ ("romantic", "romantic relationship", ["boyfriend", "girlfriend", "husband", "wife", "partner", "ex", "married", "divorced", "dating", "cheated"])
  , ("family", "family relationship", ["mother", "father", "mom", "dad", "parents", "family", "brother", "sister", "son", "daughter"])
  , ("social", "social belonging", ["friends", "people", "everyone", "no one", "alone", "lonely", "belong", "rejected"])
  , ("work", "work relationship", ["job", "work", "boss", "career", "fired", "coworker", "promotion"])
  , ("trust", "trust dynamics", ["trust", "betrayed", "lied", "cheated", "loyal", "abandoned"]) ]

/-- detectSociology (classifier.js lines 155 to 181): increment 0.25. -/
def detectSociology (message : String) : DimScore :=
  let base := scanTable (jsToLower message) (25/100) SOCIO_TABLE
  { base with score := min base.score 1 }

/-- Physiology marker table (classifier.js lines 185 to 190). -/
def PHYS_TABLE : List (String × String × List String) :=
  [ ("body_image", "body image", ["body", "fat", "skinny", "ugly", "beautiful", "weight", "looks", "face", "attractive"])
  , ("health", "health/pain", ["sick", "pain", "hurt", "injured", "doctor", "hospital", "disease"])
  , ("energy", "energy state", ["tired", "exhausted", "drained", "energy", "sleep", "restless"])
  , ("sensation", "physical sensation", ["hungry", "cold", "hot", "numb", "tense"]) ]

/-- detectPhysiology (classifier.js lines 183 to 208): increment 0.25. -/
def detectPhysiology (message : String) : DimScore :=
  let base := scanTable (jsToLower message) (25/100) PHYS_TABLE
  { base with score := min base.score 1 }

/-- One matched depth signal (classifier.js line 231). -/
structure DepthSignal where
  type : String
  marker : String
  description : String
deriving DecidableEq, Repr

/-- Confession-depth result with the derived booleans (classifier.js 237). -/
structure ConfessionDepth where
  depth : Nat
  signals : List DepthSignal
  isDeep : Bool
  isCovenant : Bool
deriving DecidableEq, Repr

/-- Depth-marker table (classifier.js lines 219 to 225). -/
def DEPTH_TABLE : List (String × String × List String) :=
  [ ("formative", "formative timeframe", ["when i was", "as a kid", "growing up", "childhood", "years ago"])
  , ("witness", "witnessed event", ["everyone", "people saw", "they all", "laughed at", "in front of"])
  , ("permanence", "lasting impact", ["still", "to this day", "never forgot", "haunts me", "changed me", "ever since"])
  , ("confession", "confession/secret", ["never told", "first time", "admit", "confess", "no one knows", "secret"])
  , ("selfJudgment", "self-judgment", ["i\x27m a", "i am a", "such a", "pathetic", "worthless"]) ]

/-- detectConfessionDepth (classifier.js lines 214 to 238): counts depth-marker
    categories with at least one hit; isDeep at 2, isCovenant at 3. -/
def detectConfessionDepth (message : String) : ConfessionDepth :=
  let lower := jsToLower message
  let hits :=
    DEPTH_TABLE.foldl
      (fun (acc : List DepthSignal) entry =>
        match entry.2.2.find? (fun m => incl lower m) with
        | some m => acc ++ [{ type := entry.1, marker := m, description := entry.2.1 }]
        | none => acc)
      []
  { depth := hits.length, signals := hits
    isDeep := decide (2 ≤ hits.length), isCovenant := decide (3 ≤ hits.length) }

/-- Static noise phrase list (classifier.js line 103). -/
def NOISE_PATTERNS : List String :=
  ["hi", "hello", "hey", "sup", "yo", "what\x27s up", "weather", "what time", "thanks", "ok", "okay", "cool", "nice"]

/-- Alternative expansions of the anchored prefix group of the noise regex in
    classifier.js line 110 (what or how with optional apostrophe and s, or
    the literal is it). -/
def NOISE_REGEX_PREFIXES : List String :=
  ["what", "what\x27", "whats", "what\x27s", "how", "how\x27", "hows", "how\x27s", "is it"]

/-- Topic alternatives of the trailing group of the same regex. -/
def NOISE_REGEX_TOPICS : List String := ["weather", "temperature", "time", "date"]

/-- Hand compilation of the utility-question regex of classifier.js line 110:
    anchored at the start, a prefix alternative, then dot-star (which cannot
    cross a line terminator), then a topic alternative. The text matches iff
    it starts with some prefix and a topic occurs in the remainder before the
    first line terminator. -/
def noiseRegexHit (lower : String) : Bool :=
  NOISE_REGEX_PREFIXES.any (fun p =>
    jsStartsWith lower p &&
      (let rest := String.mk ((lower.toList.drop (strLen p)).takeWhile dotChar)
       NOISE_REGEX_TOPICS.any (fun t => incl rest t)))

/-- isNoise (classifier.js lines 105 to 112). Note that when the short-text
    branch is taken its phrase-list answer is returned directly, without
    falling through to the utility-question regex. -/
def isNoise (message : String) : Bool :=
  let lower := jsTrim (jsToLower message)
  if strLen lower < 15 && !incl lower "i " && !incl lower "my " && !incl lower "me " then
    NOISE_PATTERNS.any (fun p => incl lower p || lower == p)
  else
    noiseRegexHit lower

/-- One entry of the dimensions list built by classifyMessage. Fields absent
    in the source records (score and categories of the noise and context
    sentinels, elevatedByDepth before elevation) are given neutral values. -/
structure Dimension where
  type : String
  weight : Nat
  score : Rat
  categories : List String
  markers : List Marker
  elevatedByDepth : Bool
deriving DecidableEq, Repr

/-- The classification object produced by classifyMessage. -/
structure Classification where
  weight : Nat
  dimension : String
  isNoise : Bool
  dimensions : List Dimension
  confessionDepth : ConfessionDepth
  isMultiDimensional : Bool
deriving DecidableEq, Repr

/-- The dimensions list built by classifyMessage before depth elevation
    (classifier.js lines 260 to 263): each dimension whose score exceeds 0.1,
    with its fixed dimension-to-tier weight, psychology first. -/
def baseDimensions (psych socio phys : DimScore) : List Dimension :=
  (if 1/10 < psych.score then
    [{ type := "psychology", weight := 21, score := psych.score,
       categories := psych.categories, markers := psych.markers, elevatedByDepth := false }]
   else []) ++
  (if 1/10 < socio.score then
    [{ type := "sociology", weight := 13, score := socio.score,
       categories := socio.categories, markers := socio.markers, elevatedByDepth := false }]
   else []) ++
  (if 1/10 < phys.score then
    [{ type := "physiology", weight := 8, score := phys.score,
       categories := phys.categories, markers := phys.markers, elevatedByDepth := false }]
   else [])

/-- Depth elevation (classifier.js lines 266 to 272): a covenant-level depth
    signal forces the first dimension to weight 21, a deep signal raises it
    to 13 when lower. -/
def elevateDimensions (confessionDepth : ConfessionDepth) : List Dimension → List Dimension
  | [] => []
  | d :: rest =>
      if confessionDepth.isCovenant then
        { d with weight := 21, elevatedByDepth := true } :: rest
      else if confessionDepth.isDeep && d.weight < 13 then
        { d with weight := 13, elevatedByDepth := true } :: rest
      else d :: rest

/-- classifyMessage (classifier.js lines 244 to 294). The source returns the
    context sentinel when the dimensions list is empty, which is exactly the
    case in which its descending sort is empty. -/
def classifyMessage (message : String) : Classification :=
  if isNoise message then
    { weight := 1, dimension := "noise", isNoise := true
      dimensions := [{ type := "noise", weight := 1, score := 0, categories := [],
                       markers := [], elevatedByDepth := false }]
      confessionDepth := { depth := 0, signals := [], isDeep := false, isCovenant := false }
      isMultiDimensional := false }
  else
    let confessionDepth := detectConfessionDepth message
    let dims1 : List Dimension :=
      elevateDimensions confessionDepth
        (baseDimensions (detectPsychology message) (detectSociology message)
          (detectPhysiology message))
    match dims1.mergeSort (fun a b => decide (b.weight ≤ a.weight)) with
    | [] =>
        { weight := 3, dimension := "context", isNoise := false
          dimensions := [{ type := "context", weight := 3, score := 0, categories := [],
                           markers := [], elevatedByDepth := false }]
          confessionDepth := confessionDepth, isMultiDimensional := false }
    | top :: restSorted =>
        { weight := top.weight, dimension := top.type, isNoise := false
          dimensions := top :: restSorted, confessionDepth := confessionDepth
          isMultiDimensional := decide (1 < (top :: restSorted).length) }

/-! ## Invariant gate, first module version — src/services/invariant-gate.js
    lines 1 to 349. Regex evaluation is abstracted as a parameter
    rm : String → String → Option String mapping the literal regex text and
    the response to match[0] of the first match (none when no match). -/

namespace Gate1

/-- A violation record. The optional count fields are only set by the
    Never-Fills check of this module version; the optional token fields are
    only set by the second module version. -/
structure Violation where
  invariant : String
  severity : String
  matched : String
  rule : String
  sentenceCount : Option Nat := none
  wordCount : Option Nat := none
  approxTokens : Option Nat := none
  tokenLimit : Option Nat := none
deriving DecidableEq, Repr

/-- The fixed crisis/referral/abandonment regex list (invariant-gate.js lines
    29 to 46), kept as literal regex text. -/
def ABANDONMENT_PATTERNS : List String :=
  [ "/you should (talk to|see|speak with|consult|reach out to) (a |an )?(therapist|counselor|professional|doctor|psychiatrist|psychologist|specialist|someone)/i"
  , "/i(\x27m| am) not (qualified|equipped|able|the right|a substitute)/i"
  , "/seek (professional |medical )?(help|support|assistance|guidance)/i"
  , "/please (call|contact|reach out to|consider calling)/i"
  , "/national (suicide|crisis|mental health)/i"
  , "/crisis (line|hotline|text|number)/i"
  , "/\\b(hotline|helpline|988|741741)\\b/i"
  , "/i can\x27?t (help|assist|support|be there for) you (with|on|about|in) this/i"
  , "/this is (beyond|outside|above) (my|what i)/i"
  , "/i(\x27m| am) (just|only) an? (ai|bot|program|assistant|language model)/i"
  , "/i don\x27?t (have|possess) (the ability|real emotions|feelings|a body)/i"
  , "/it\x27?s (important|crucial|essential) (that you|to) (talk to|see|get) (someone|a |help)/i"
  , "/i (strongly |really )?(recommend|suggest|urge|encourage) (you )?(to )?(seek|get|find|talk)/i" ]

/-- Judgment regex list of the first module version (lines 69 to 85). -/
def JUDGMENT_PATTERNS : List String :=
  [ "/that(\x27s| is| was) (wrong|bad|terrible|awful|horrible|unacceptable|inexcusable)/i"
  , "/you (shouldn\x27t have|should not have|made a mistake|were wrong)/i"
  , "/that\x27?s not (okay|ok|right|acceptable|healthy)/i"
  , "/you need to (forgive|let go|move on|accept|stop|understand that)/i"
  , "/have you considered (that you|that maybe you|whether you)/i"
  , "/that (sounds like|could be|might be) (narciss|toxic|abusi|manipulat|codependen)/i"
  , "/you (might be|could be|seem to be|are being) (toxic|narcissist|codependent|enabling)/i"
  , "/at least (you|it|things)/i"
  , "/look on the bright side/i"
  , "/everything happens for a reason/i"
  , "/it could (be|have been) worse/i" ]

/-- Narration regex list of the first module version (lines 109 to 123). -/
def NARRATION_PATTERNS : List String :=
  [ "/you (told|mentioned|said|shared|revealed) (to me |me )?(that |about |how )?(last|before|earlier|previously|in our|when we)/i"
  , "/i remember (you |when you |that you |your )/i"
  , "/as (you|we) (discussed|talked about|mentioned|explored)/i"
  , "/from (our |what you |your )?(previous|earlier|last|past) (conversation|session|chat|talk)/i"
  , "/you(\x27ve| have) (told|shared|mentioned|said) (before|previously|earlier)/i"
  , "/i (know|understand|can see|sense|notice|recall|recognize) that you/i"
  , "/based on (what you\x27ve|our previous|your earlier|what i know)/i"
  , "/i(\x27ve| have) (noticed|observed|picked up on|been tracking)/i"
  , "/in (my|our) (notes|records|memory|data|logs|history)/i"
  , "/according to (my|our) (conversation|records|data)/i" ]

/-- Cheerful-at-high-weight regex list (lines 189 to 196). -/
def HIGH_WEIGHT_CHEER_PATTERNS : List String :=
  [ "/that\x27?s (great|awesome|amazing|wonderful|fantastic|exciting)/i"
  , "/how (exciting|wonderful|great|cool|fun)/i"
  , "/(?:^|\\. )wow[.!]/i"
  , "/(?:^|\\. )yay[.!]/i" ]

/-- Probing-while-exhausted regex list (lines 201 to 206). -/
def EXHAUSTION_PROBE_PATTERNS : List String :=
  [ "/(\\?.*)\x7b3,\x7d/"
  , "/tell me (more|about|what|how|why)/i"
  , "/what (happened|do you mean|are you feeling)/i" ]

/-- Shared loop shape of checkNeverAbandons, checkNeverJudges and
    checkNeverNarrates: one violation per matching pattern, in pattern
    order. -/
def scanPatterns (rm : String → String → Option String) (pats : List String)
    (response inv sev rule : String) : List Violation :=
  pats.foldl
    (fun acc pat =>
      match rm pat response with
      | some m => acc ++ [{ invariant := inv, severity := sev, matched := m, rule := rule }]
      | none => acc)
    []

/-- checkNeverAbandons (lines 48 to 62). -/
def checkNeverAbandons (rm : String → String → Option String) (response : String) :
    List Violation :=
  scanPatterns rm ABANDONMENT_PATTERNS response "NEVER_ABANDONS" "CRITICAL"
    "No redirect, no referral, no exit. She stays."

/-- checkNeverJudges (lines 87 to 101). -/
def checkNeverJudges (rm : String → String → Option String) (response : String) :
    List Violation :=
  scanPatterns rm JUDGMENT_PATTERNS response "NEVER_JUDGES" "HIGH"
    "Holds the frame without evaluation. No moral commentary."

/-- checkNeverNarrates (lines 125 to 139). -/
def checkNeverNarrates (rm : String → String → Option String) (response : String) :
    List Violation :=
  scanPatterns rm NARRATION_PATTERNS response "NEVER_NARRATES" "HIGH"
    "Never announce what she knows. Knowing expresses through BEING, not telling."

/-- JS response.split(regex of whitespace runs): pieces between maximal
    whitespace runs, keeping empty leading/trailing pieces exactly as JS
    split does. Fuel-driven so the recursion is structural. -/
def jsSplitWsAux (p : Char → Bool) : Nat → List Char → List (List Char)
  | _, [] => [[]]
  | 0, cs => [cs]
  | fuel + 1, cs =>
      let tok := cs.takeWhile (fun c => !p c)
      match cs.dropWhile (fun c => !p c) with
      | [] => [tok]
      | _ :: rs => tok :: jsSplitWsAux p fuel (rs.dropWhile p)

/-- JS response.split on a whitespace-run regex. -/
def jsSplitWs (s : String) : List String :=
  (jsSplitWsAux Char.isWhitespace s.toList.length s.toList).map String.mk

/-- Sentence-terminator class of the split regex in checkNeverFills. -/
def sentPunct (c : Char) : Bool := c == '.' || c == '!' || c == '?'

/-- JS response.split on the regex of a punctuation run followed by optional
    whitespace (checkNeverFills line 152). -/
def jsSplitSentAux : Nat → List Char → List (List Char)
  | _, [] => [[]]
  | 0, cs => [cs]
  | fuel + 1, cs =>
      let tok := cs.takeWhile (fun c => !sentPunct c)
      match cs.dropWhile (fun c => !sentPunct c) with
      | [] => [tok]
      | _ :: rs =>
          tok :: jsSplitSentAux fuel ((rs.dropWhile sentPunct).dropWhile Char.isWhitespace)

/-- Sentence pieces of a response. -/
def jsSplitSent (s : String) : List String :=
  (jsSplitSentAux s.toList.length s.toList).map String.mk

/-- checkNeverFills of the first module version (lines 147 to 179): at weight
    8 and above, more than 3 nonempty sentences gives a MEDIUM violation; at
    weight 13 and above, more than 50 whitespace-split pieces gives a HIGH
    violation. -/
def checkNeverFills (response : String) (currentWeight : Nat) : List Violation :=
  if 8 ≤ currentWeight then
    let sentences := (jsSplitSent response).filter (fun s => 0 < strLen (jsTrim s))
    let wordCount := (jsSplitWs response).length
    (if 3 < sentences.length then
      [{ invariant := "NEVER_FILLS", severity := "MEDIUM"
         matched := toString sentences.length ++ " sentences at W" ++ toString currentWeight
         rule := "At W" ++ toString currentWeight ++ ", response should be <=2-3 sentences. Space is the gift."
         sentenceCount := some sentences.length, wordCount := some wordCount }]
     else []) ++
    (if 13 ≤ currentWeight && 50 < wordCount then
      [{ invariant := "NEVER_FILLS", severity := "HIGH"
         matched := toString wordCount ++ " words at W" ++ toString currentWeight
         rule := "At W" ++ toString currentWeight ++ ", brevity is presence. Under 40 words ideal."
         wordCount := some wordCount }]
     else [])
  else []

/-- One detected resistance signal, as produced by detectResistance in the
    classifier and consumed by checkAlwaysCalibrates. -/
structure Resist where
  type : String
  marker : String
  weight : String
  action : String
deriving DecidableEq, Repr

/-- checkAlwaysCalibrates of the first module version (lines 211 to 248):
    each sub-check reports at most one violation (the loop breaks on the
    first matching pattern). -/
def checkAlwaysCalibrates (rm : String → String → Option String) (response : String)
    (currentWeight : Nat) (resistance : List Resist) : List Violation :=
  (if 13 ≤ currentWeight then
    match HIGH_WEIGHT_CHEER_PATTERNS.findSome? (fun pat => rm pat response) with
    | some m => [{ invariant := "ALWAYS_CALIBRATES", severity := "MEDIUM", matched := m,
                   rule := "Cheerful tone misaligned with deep emotional content." }]
    | none => []
   else []) ++
  (if resistance.any (fun r => r.action == "comfort_mode") then
    match EXHAUSTION_PROBE_PATTERNS.findSome? (fun pat => rm pat response) with
    | some m => [{ invariant := "ALWAYS_CALIBRATES", severity := "MEDIUM", matched := m,
                   rule := "Probing when user is exhausted. Comfort, not inquiry." }]
    | none => []
   else [])

/-- The two classification fields destructured by enforceInvariants. -/
structure GateInput where
  weight : Nat
  resistance : List Resist
deriving DecidableEq, Repr

/-- Enforcement metadata entry (invariant, action, count). -/
structure Enforcement where
  invariant : String
  action : String
  count : Nat
deriving DecidableEq, Repr

/-- buildRegenerationConstraints (lines 318 to 339): one fixed corrective
    line per distinct violated invariant, in priority order. -/
def buildRegenerationConstraints (violations : List Violation) : String :=
  let types := violations.map (fun v => v.invariant)
  let cs :=
    (if types.contains "NEVER_ABANDONS" then
      ["CRITICAL: Do NOT suggest professional help, hotlines, or say you cannot help. Stay present. Say \"I\x27m here.\" Hold the space."]
     else []) ++
    (if types.contains "NEVER_JUDGES" then
      ["Do NOT evaluate, judge, or label their behavior. Hold the frame without moral commentary."]
     else []) ++
    (if types.contains "NEVER_NARRATES" then
      ["Do NOT announce what you remember or know about them. Express knowing through HOW you respond, not by stating what you know."]
     else []) ++
    (if types.contains "NEVER_FILLS" then
      ["Keep response to 1-2 sentences maximum. Brevity IS presence at this emotional depth."]
     else []) ++
    (if types.contains "ALWAYS_CALIBRATES" then
      ["Match the emotional weight of what was shared. Do not be cheerful about heavy content."]
     else [])
  String.intercalate "\n" cs

/-- The gate result (lines 302 to 314). The wall-clock gateTimeMs field is
    not modelled. -/
structure GateResult where
  pass : Bool
  violations : List Violation
  violationCount : Nat
  hasCritical : Bool
  hasHigh : Bool
  enforcements : List Enforcement
  requiresRegeneration : Bool
  regenerationConstraints : Option String
deriving DecidableEq, Repr

/-- enforceInvariants of the first module version (lines 255 to 315): runs
    the five checks in priority order, concatenates their violations, and
    derives pass and requiresRegeneration. -/
def enforceInvariants (rm : String → String → Option String) (response : String)
    (cls : GateInput) : GateResult :=
  let abandonViolations := checkNeverAbandons rm response
  let calibrateViolations := checkAlwaysCalibrates rm response cls.weight cls.resistance
  let judgeViolations := checkNeverJudges rm response
  let fillViolations := checkNeverFills response cls.weight
  let narrateViolations := checkNeverNarrates rm response
  let allViolations :=
    abandonViolations ++ calibrateViolations ++ judgeViolations ++ fillViolations ++
      narrateViolations
  let enforcements :=
    (if 0 < abandonViolations.length then
      [{ invariant := "NEVER_ABANDONS", action := "BLOCKED", count := abandonViolations.length }]
     else []) ++
    (if 0 < calibrateViolations.length then
      [{ invariant := "ALWAYS_CALIBRATES", action := "FLAGGED", count := calibrateViolations.length }]
     else []) ++
    (if 0 < judgeViolations.length then
      [{ invariant := "NEVER_JUDGES", action := "BLOCKED", count := judgeViolations.length }]
     else []) ++
    (if 0 < fillViolations.length then
      [{ invariant := "NEVER_FILLS", action := "FLAGGED", count := fillViolations.length }]
     else []) ++
    (if 0 < narrateViolations.length then
      [{ invariant := "NEVER_NARRATES", action := "BLOCKED", count := narrateViolations.length }]
     else [])
  let hasCritical := allViolations.any (fun v => v.severity == "CRITICAL")
  let hasHigh := allViolations.any (fun v => v.severity == "HIGH")
  { pass := allViolations.isEmpty
    violations := allViolations
    violationCount := allViolations.length
    hasCritical := hasCritical
    hasHigh := hasHigh
    enforcements := enforcements
    requiresRegeneration := hasCritical
    regenerationConstraints :=
      if hasCritical then some (buildRegenerationConstraints allViolations) else none }

end Gate1

/-! ## Invariant gate, second module version — src/services/invariant-gate.js
    lines 350 to 694. Only the pieces cited by the claims are embedded:
    approximateTokens, WEIGHT_TOKEN_LIMITS and checkNeverFills. -/

namespace Gate2

/-- approximateTokens (lines 492 to 494): nonempty whitespace pieces times
    1.3, rounded up. The float literal 1.3 is idealised as 13/10. -/
def approximateTokens (text : String) : Nat :=
  (13 * ((Gate1.jsSplitWs text).filter (fun w => 0 < strLen w)).length + 9) / 10

/-- Max token budgets by Fibonacci weight (lines 502 to 506). -/
def WEIGHT_TOKEN_LIMITS : List (Nat × Nat) := [(8, 60), (13, 50), (21, 40)]

/-- The limit used by checkNeverFills: the table entry, or the cascaded
    fallback (line 511 to 512). -/
def tokenLimitFor (fibonacciWeight : Nat) : Nat :=
  (WEIGHT_TOKEN_LIMITS.lookup fibonacciWeight).getD
    (if 21 ≤ fibonacciWeight then 40 else if 13 ≤ fibonacciWeight then 50 else 60)

/-- checkNeverFills of the second module version (lines 508 to 529). -/
def checkNeverFills (response : String) (fibonacciWeight : Nat) : List Gate1.Violation :=
  if fibonacciWeight < 8 then []
  else
    let limit := tokenLimitFor fibonacciWeight
    let approxTokens := approximateTokens response
    if limit < approxTokens then
      [{ invariant := "NEVER_FILLS", severity := "MEDIUM"
         matched := toString approxTokens ++ " tokens (limit: " ++ toString limit ++
           " for W" ++ toString fibonacciWeight ++ ")"
         rule := "At W" ++ toString fibonacciWeight ++ ", space IS the gift. Response exceeds budget."
         approxTokens := some approxTokens, tokenLimit := some limit }]
    else []

end Gate2

/-! ## Prompt engine — src/services/prompt-engine.js -/

/-- getLengthConstraint (prompt-engine.js lines 103 to 109). -/
def getLengthConstraint (weight : Nat) : String :=
  if 21 ≤ weight then "Respond in 1-2 sentences MAXIMUM. Under 25 words ideal."
  else if 13 ≤ weight then "Respond in 2-3 sentences. Under 40 words ideal."
  else if 8 ≤ weight then "Respond in 2-3 sentences. Under 50 words."
  else if 5 ≤ weight then "Respond in 2-4 sentences. Under 60 words."
  else "Respond naturally but concisely. Under 75 words. You are speaking, not writing."

/-- The numeric word ceiling stated in the branch of getLengthConstraint
    selected by the weight. -/
def wordCeiling (weight : Nat) : Nat :=
  if 21 ≤ weight then 25
  else if 13 ≤ weight then 40
  else if 8 ≤ weight then 50
  else if 5 ≤ weight then 60
  else 75

/-- The fixed ordinal tier set of the specification. -/
def TIERS : List Nat := [1, 3, 5, 8, 13, 21]

/-! ## Conductance pathway accumulator — src/unnamed/part_002.
    The Supabase store is modelled as a list of pathway rows with unique
    numeric ids; Math.exp is the explicit parameter e. -/

/-- Conductance dynamics parameters (part_002 lines 29 to 51). -/
structure ConductanceConfig where
  reinforcementRate : Rat
  maxConductance : Rat
  decayRate : Rat
  minConductance : Rat
  lowThreshold : Rat
  mediumThreshold : Rat
  highThreshold : Rat
  maxPathwaysPerUser : Nat
  pruneThreshold : Rat
  staleAgeDays : Rat
deriving DecidableEq, Repr

/-- CONDUCTANCE_CONFIG constant. -/
def CONDUCTANCE_CONFIG : ConductanceConfig :=
  { reinforcementRate := 15/100
    maxConductance := 1
    decayRate := 2/100
    minConductance := 0
    lowThreshold := 2/10
    mediumThreshold := 5/10
    highThreshold := 8/10
    maxPathwaysPerUser := 50
    pruneThreshold := 5/100
    staleAgeDays := 90 }

/-- One row of the conductance_pathways table. Timestamps are milliseconds
    since the epoch as rationals. -/
structure Pathway where
  id : Nat
  userId : String
  dimension : String
  theme : String
  conductance : Rat
  lastReinforced : Rat
  reinforcementCount : Nat
  maxWeightSeen : Nat
  createdAt : Rat
deriving DecidableEq, Repr

/-- The persisted store. -/
abbrev Store := List Pathway

/-- daysSince helper (part_002 lines 317 to 320) for a non-null timestamp. -/
def daysSince (now t : Rat) : Rat := (now - t) / 86400000

/-- extractTheme (part_002 lines 152 to 163), including the JS falsiness
    cascade over empty strings. -/
def extractTheme (c : Classification) : Option String :=
  match c.dimensions with
  | [] => none
  | primary :: _ =>
    match primary.markers with
    | [] =>
        let c0 :=
          match primary.categories with
          | [] => ""
          | x :: _ => x
        let t := if c0 = "" then primary.type else c0
        if t = "" then none else some t
    | m :: _ =>
        let t :=
          if m.category = "" then (if m.description = "" then primary.type else m.description)
          else m.category
        if t = "" then none else some t

/-- Fresh row id for an insert (model of the database autoincrement key). -/
def freshId (store : Store) : Nat := (store.map (fun p => p.id)).foldl max 0 + 1

/-- The weight multiplier of reinforcePathway (part_002 line 86): higher
    weight gives stronger reinforcement. -/
def weightMultiplier (w : Nat) : Rat :=
  if 21 ≤ w then 2 else if 13 ≤ w then 3/2 else if 8 ≤ w then 6/5 else 1

/-- The depth bonus of reinforcePathway (part_002 line 87). -/
def depthBonus (cd : ConfessionDepth) : Rat :=
  if cd.isCovenant = true then 1/10 else if cd.isDeep = true then 1/20 else 0

/-- The conductance written when reinforcing an existing pathway (part_002
    lines 81 to 92): saturating growth from the headroom, scaled by the
    weight multiplier, plus the depth bonus, clamped at maxConductance. -/
def reinforcedConductance (cls : Classification) (c : Rat) : Rat :=
  min CONDUCTANCE_CONFIG.maxConductance
    (c + CONDUCTANCE_CONFIG.reinforcementRate * ((CONDUCTANCE_CONFIG.maxConductance - c) /
        CONDUCTANCE_CONFIG.maxConductance) * weightMultiplier cls.weight +
      depthBonus cls.confessionDepth)

/-- The updated row written by the reinforce branch (part_002 lines 94 to
    104). -/
def reinforcedRow (now : Rat) (cls : Classification) (existing : Pathway) : Pathway :=
  { existing with
      conductance := reinforcedConductance cls existing.conductance
      lastReinforced := now
      reinforcementCount := existing.reinforcementCount + 1
      maxWeightSeen := max existing.maxWeightSeen cls.weight }

/-- The tier-dependent seed conductance of a new pathway (part_002 line
    116). -/
def initialConductance (w : Nat) : Rat :=
  if 21 ≤ w then 3/10 else if 13 ≤ w then 1/5 else 1/10

/-- The row inserted by the create branch (part_002 lines 118 to 131). -/
def freshRow (now : Rat) (userId : String) (cls : Classification) (theme : String)
    (store : Store) : Pathway :=
  { id := freshId store, userId := userId, dimension := cls.dimension, theme := theme
    conductance := initialConductance cls.weight, lastReinforced := now
    reinforcementCount := 1, maxWeightSeen := cls.weight, createdAt := now }

/-- reinforcePathway (part_002 lines 58 to 145): no-op below weight 5 or
    without a theme; saturating growth with weight multiplier and depth bonus
    on an existing row; tier-dependent seed on a new row. Returns the written
    row (when any) and the updated store. -/
def reinforcePathway (now : Rat) (userId : String) (cls : Classification) (store : Store) :
    Option Pathway × Store :=
  if userId = "" then (none, store)
  else if cls.weight < 5 then (none, store)
  else
    match extractTheme cls with
    | none => (none, store)
    | some theme =>
      match store.find? (fun p =>
          p.userId == userId && p.dimension == cls.dimension && p.theme == theme) with
      | some existing =>
          (some (reinforcedRow now cls existing),
           store.map (fun p => if p.id == existing.id then reinforcedRow now cls existing else p))
      | none =>
          (some (freshRow now userId cls theme store), store ++ [freshRow now userId cls theme store])

/-- The per-row decay step inside applyDecay (part_002 lines 233 to 247):
    skipped within one day of the last reinforcement, otherwise exponential
    decay with the update written only above the 0.001 change threshold.
    Note the lastReinforced timestamp is not touched by the write. -/
def decayPathway (e : Rat → Rat) (now : Rat) (p : Pathway) : Pathway :=
  let daysSinceReinforcement := daysSince now p.lastReinforced
  if daysSinceReinforcement < 1 then p
  else
    let decayFactor := e (-(CONDUCTANCE_CONFIG.decayRate * daysSinceReinforcement))
    let newConductance := p.conductance * decayFactor
    if 1/1000 < |newConductance - p.conductance| then
      { p with conductance := max CONDUCTANCE_CONFIG.minConductance newConductance }
    else p

/-- prunePathways (part_002 lines 273 to 292): delete the rows of the user
    whose conductance is below the prune threshold and whose last
    reinforcement is older than the staleness age. -/
def prunePathways (now : Rat) (userId : String) (store : Store) : Store :=
  let staleDate := now - CONDUCTANCE_CONFIG.staleAgeDays * 24 * 60 * 60 * 1000
  store.filter (fun p =>
    !(p.userId == userId && p.conductance < CONDUCTANCE_CONFIG.pruneThreshold &&
      p.lastReinforced < staleDate))

/-- applyDecay (part_002 lines 219 to 267): decay every row of the user,
    then prune. -/
def applyDecay (e : Rat → Rat) (now : Rat) (userId : String) (store : Store) : Store :=
  prunePathways now userId
    (store.map (fun p => if p.userId == userId then decayPathway e now p else p))

/-- One entry of the returned landscape (part_002 lines 198 to 205). -/
structure LandscapeEntry where
  dimension : String
  theme : String
  conductance : Rat
  reinforcementCount : Nat
  maxWeightSeen : Nat
  daysSinceReinforced : Rat
deriving DecidableEq, Repr

/-- loadConductanceLandscape (part_002 lines 170 to 212): apply decay, then
    return the rows of the user above the visibility threshold, sorted by
    descending conductance, capped at maxPathwaysPerUser. Returns the
    landscape together with the post-read store (the decay is a write-back
    side effect). The session count of the separate sessions table is not
    modelled. -/
def loadConductanceLandscape (e : Rat → Rat) (now : Rat) (userId : String) (store : Store) :
    List LandscapeEntry × Store :=
  if userId = "" then ([], store)
  else
    let store2 := applyDecay e now userId store
    let visible := store2.filter (fun p =>
      p.userId == userId && CONDUCTANCE_CONFIG.minConductance + 1/100 < p.conductance)
    let sorted := visible.mergeSort (fun a b => decide (b.conductance ≤ a.conductance))
    let capped := sorted.take CONDUCTANCE_CONFIG.maxPathwaysPerUser
    (capped.map (fun p =>
      { dimension := p.dimension, theme := p.theme, conductance := p.conductance
        reinforcementCount := p.reinforcementCount, maxWeightSeen := p.maxWeightSeen
        daysSinceReinforced := daysSince now p.lastReinforced }), store2)

/-! ## Helper lemmas about the conductance accumulator -/

/-- Elapsed days from a timestamp to itself is zero. -/
theorem daysSince_self (now : Rat) : daysSince now now = 0 := by
  unfold daysSince
  rw [sub_self, zero_div]

/-- The decay step never changes the owner of a row. -/
theorem decayPathway_userId (e : Rat → Rat) (now : Rat) (p : Pathway) :
    (decayPathway e now p).userId = p.userId := by
  unfold decayPathway
  simp only []
  split
  · rfl
  · split <;> rfl

/-- The decay step is skipped within one day of the last reinforcement. -/
theorem decayPathway_skip (e : Rat → Rat) (now : Rat) (p : Pathway)
    (h : daysSince now p.lastReinforced < 1) : decayPathway e now p = p := by
  unfold decayPathway
  rw [if_pos h]

/-- Filtering with a weaker predicate keeps at least as many elements. -/
theorem length_filter_mono {α : Type} (p q : α → Bool) :
    ∀ l : List α, (∀ a ∈ l, p a = true → q a = true) →
      (l.filter p).length ≤ (l.filter q).length := by
  intro l
  induction l with
  | nil => intro _; exact Nat.le_refl _
  | cons a t ih =>
      intro h
      have ht := ih (fun x hx => h x (List.mem_cons_of_mem a hx))
      by_cases hp : p a = true
      · rw [List.filter_cons_of_pos hp, List.filter_cons_of_pos (h a (List.mem_cons_self a t) hp)]
        exact Nat.succ_le_succ ht
      · rw [List.filter_cons_of_neg (by simpa using hp)]
        by_cases hq : q a = true
        · rw [List.filter_cons_of_pos hq]
          exact Nat.le_succ_of_le ht
        · rw [List.filter_cons_of_neg (by simpa using hq)]
          exact ht

/-- Mapping with a function that does not change the filter predicate keeps
    the filtered length. -/
theorem length_filter_map_eq {α : Type} (f : α → α) (q : α → Bool) :
    ∀ l : List α, (∀ a ∈ l, q (f a) = q a) →
      ((l.map f).filter q).length = (l.filter q).length := by
  intro l
  induction l with
  | nil => intro _; rfl
  | cons a t ih =>
      intro h
      have ha := h a (List.mem_cons_self a t)
      have ht := ih (fun x hx => h x (List.mem_cons_of_mem a hx))
      rw [List.map_cons]
      by_cases hq : q a = true
      · rw [List.filter_cons_of_pos (by rw [ha, hq]), List.filter_cons_of_pos hq]
        simpa using ht
      · rw [List.filter_cons_of_neg (by rw [ha]; simpa using hq),
          List.filter_cons_of_neg (by simpa using hq)]
        exact ht

/-- A row of the user that was written at the read timestamp, with visible
    conductance, appears in the loaded landscape with its stored conductance,
    provided the user holds at most the landscape cap of rows. -/
theorem mem_landscape_of_fresh (e : Rat → Rat) (now : Rat) (u : String) (store : Store)
    (hu : u ≠ "") (p : Pathway) (hp : p ∈ store) (hlr : p.lastReinforced = now)
    (hpu : p.userId = u) (hc : 1/100 < p.conductance)
    (hcount : (store.filter (fun q => q.userId == u)).length ≤ 50) :
    ∃ q ∈ (loadConductanceLandscape e now u store).1,
      q.dimension = p.dimension ∧ q.theme = p.theme ∧ q.conductance = p.conductance := by
  unfold loadConductanceLandscape
  rw [if_neg hu]
  simp only []
  have hstep : (fun q => if q.userId == u then decayPathway e now q else q) p = p := by
    simp only []
    rw [if_pos (by simpa using hpu)]
    exact decayPathway_skip e now p (by rw [hlr, daysSince_self]; norm_num)
  have hpM : p ∈ store.map (fun q => if q.userId == u then decayPathway e now q else q) :=
    List.mem_map.mpr ⟨p, hp, hstep⟩
  have hstale : decide (p.lastReinforced <
      now - CONDUCTANCE_CONFIG.staleAgeDays * 24 * 60 * 60 * 1000) = false := by
    apply decide_eq_false
    rw [hlr]
    have h90 : (0 : Rat) < CONDUCTANCE_CONFIG.staleAgeDays * 24 * 60 * 60 * 1000 := by
      norm_num [CONDUCTANCE_CONFIG]
    linarith
  have hpP : p ∈ applyDecay e now u store := by
    unfold applyDecay prunePathways
    simp only []
    apply List.mem_filter.mpr
    refine ⟨hpM, ?_⟩
    rw [hstale]
    simp
  have hpV : p ∈ (applyDecay e now u store).filter (fun q =>
      q.userId == u && decide (CONDUCTANCE_CONFIG.minConductance + 1/100 < q.conductance)) := by
    apply List.mem_filter.mpr
    refine ⟨hpP, ?_⟩
    have h1 : (p.userId == u) = true := by simpa using hpu
    have h2 : decide (CONDUCTANCE_CONFIG.minConductance + 1/100 < p.conductance) = true := by
      apply decide_eq_true
      have : CONDUCTANCE_CONFIG.minConductance = 0 := rfl
      rw [this, zero_add]
      exact hc
    rw [h1, h2]
    rfl
  have hlen : ((applyDecay e now u store).filter (fun q =>
      q.userId == u && decide (CONDUCTANCE_CONFIG.minConductance + 1/100 < q.conductance))).length
      ≤ 50 := by
    have step1 : ((applyDecay e now u store).filter (fun q =>
        q.userId == u && decide (CONDUCTANCE_CONFIG.minConductance + 1/100 < q.conductance))).length
        ≤ ((store.map (fun q => if q.userId == u then decayPathway e now q else q)).filter
            (fun q => q.userId == u)).length := by
      unfold applyDecay prunePathways
      simp only []
      rw [List.filter_filter]
      apply length_filter_mono
      intro a _ ha
      rcases (Bool.and_eq_true _ _).mp ha with ⟨hb, _⟩
      rcases (Bool.and_eq_true _ _).mp hb with ⟨hb1, _⟩
      exact hb1
    have step2 : ((store.map (fun q => if q.userId == u then decayPathway e now q else q)).filter
        (fun q => q.userId == u)).length
        = (store.filter (fun q => q.userId == u)).length := by
      apply length_filter_map_eq
      intro a _
      show ((if a.userId == u then decayPathway e now a else a).userId == u) = (a.userId == u)
      by_cases h : (a.userId == u) = true
      · rw [if_pos h, decayPathway_userId]
      · rw [if_neg h]
    omega
  have hsortmem : p ∈ ((applyDecay e now u store).filter (fun q =>
      q.userId == u && decide (CONDUCTANCE_CONFIG.minConductance + 1/100 < q.conductance))).mergeSort
        (fun a b => decide (b.conductance ≤ a.conductance)) :=
    List.mem_mergeSort.mpr hpV
  have htake : (((applyDecay e now u store).filter (fun q =>
      q.userId == u && decide (CONDUCTANCE_CONFIG.minConductance + 1/100 < q.conductance))).mergeSort
        (fun a b => decide (b.conductance ≤ a.conductance))).take
          CONDUCTANCE_CONFIG.maxPathwaysPerUser
      = ((applyDecay e now u store).filter (fun q =>
          q.userId == u && decide (CONDUCTANCE_CONFIG.minConductance + 1/100 < q.conductance))).mergeSort
            (fun a b => decide (b.conductance ≤ a.conductance)) := by
    apply List.take_of_length_le
    rw [List.length_mergeSort]
    exact hlen
  rw [htake]
  exact ⟨_, List.mem_map.mpr ⟨p, hsortmem, rfl⟩, rfl, rfl, rfl⟩

/-- Every violation produced by the generic pattern scanner carries the
    invariant name and severity it was given. -/
theorem mem_scanPatterns_foldl (rm : String → String → Option String)
    (response inv sev rule : String) (pats : List String) :
    ∀ (acc : List Gate1.Violation) (v : Gate1.Violation),
      v ∈ pats.foldl
        (fun acc pat =>
          match rm pat response with
          | some m => acc ++ [{ invariant := inv, severity := sev, matched := m, rule := rule }]
          | none => acc) acc →
      v ∈ acc ∨ (v.invariant = inv ∧ v.severity = sev) := by
  induction pats with
  | nil => intro acc v hv; exact Or.inl hv
  | cons p ps ih =>
      intro acc v hv
      rcases ih _ v hv with h | h
      · cases hrm : rm p response with
        | none => rw [List.foldl_cons] at hv; simp only [hrm] at h; exact Or.inl h
        | some m =>
            simp only [hrm] at h
            rcases List.mem_append.mp h with h2 | h2
            · exact Or.inl h2
            · right
              have : v = { invariant := inv, severity := sev, matched := m, rule := rule } :=
                List.mem_singleton.mp h2
              rw [this]
              exact ⟨rfl, rfl⟩
      · exact Or.inr h

/-- Field characterisation of scanPatterns output. -/
theorem mem_scanPatterns (rm : String → String → Option String)
    (pats : List String) (response inv sev rule : String) (v : Gate1.Violation)
    (hv : v ∈ Gate1.scanPatterns rm pats response inv sev rule) :
    v.invariant = inv ∧ v.severity = sev := by
  have := mem_scanPatterns_foldl rm response inv sev rule pats [] v hv
  simpa using this

/-- The scanner fold only appends to its accumulator. -/
theorem scanPatterns_foldl_mono (rm : String → String → Option String)
    (response inv sev rule : String) (pats : List String) :
    ∀ (acc : List Gate1.Violation) (v : Gate1.Violation),
      v ∈ acc →
      v ∈ pats.foldl
        (fun acc pat =>
          match rm pat response with
          | some m => acc ++ [{ invariant := inv, severity := sev, matched := m, rule := rule }]
          | none => acc) acc := by
  induction pats with
  | nil => intro acc v hv; exact hv
  | cons p ps ih =>
      intro acc v hv
      rw [List.foldl_cons]
      apply ih
      cases hrm : rm p response with
      | none => simpa [hrm] using hv
      | some m => simp only [hrm]; exact List.mem_append_left _ hv

/-- Generalised-accumulator version: if some pattern matches, the scanner
    fold reports a violation with its invariant name and severity. -/
theorem scanPatterns_exists_foldl (rm : String → String → Option String)
    (response inv sev rule : String) (pats : List String) :
    ∀ (acc : List Gate1.Violation) (pat : String), pat ∈ pats →
      (rm pat response).isSome = true →
      ∃ v ∈ pats.foldl
        (fun acc pat =>
          match rm pat response with
          | some m => acc ++ [{ invariant := inv, severity := sev, matched := m, rule := rule }]
          | none => acc) acc,
        v.invariant = inv ∧ v.severity = sev := by
  induction pats with
  | nil => intro acc pat hpat; cases hpat
  | cons p ps ih =>
      intro acc pat hpat hmatch
      rw [List.foldl_cons]
      rcases List.mem_cons.mp hpat with heq | hmem
      · subst heq
        cases hrm : rm pat response with
        | none => rw [hrm] at hmatch; cases hmatch
        | some m =>
            refine ⟨{ invariant := inv, severity := sev, matched := m, rule := rule },
              ?_, rfl, rfl⟩
            simp only [hrm]
            exact scanPatterns_foldl_mono rm response inv sev rule ps _ _
              (List.mem_append_right _ (List.mem_singleton.mpr rfl))
      · exact ih _ pat hmem hmatch

/-- If some pattern matches, the scanner reports a violation with its
    invariant name and severity. -/
theorem scanPatterns_exists (rm : String → String → Option String)
    (pats : List String) (response inv sev rule : String)
    (h : ∃ pat ∈ pats, (rm pat response).isSome = true) :
    ∃ v ∈ Gate1.scanPatterns rm pats response inv sev rule,
      v.invariant = inv ∧ v.severity = sev := by
  obtain ⟨pat, hpat, hmatch⟩ := h
  exact scanPatterns_exists_foldl rm response inv sev rule pats [] pat hpat hmatch

/-- Field characterisation of the calibration check. -/
theorem mem_checkAlwaysCalibrates (rm : String → String → Option String) (response : String)
    (w : Nat) (resistance : List Gate1.Resist) (v : Gate1.Violation)
    (hv : v ∈ Gate1.checkAlwaysCalibrates rm response w resistance) :
    v.invariant = "ALWAYS_CALIBRATES" ∧ v.severity = "MEDIUM" := by
  unfold Gate1.checkAlwaysCalibrates at hv
  rcases List.mem_append.mp hv with h | h
  · split at h
    · split at h
      · rcases List.mem_singleton.mp h with rfl; exact ⟨rfl, rfl⟩
      · cases h
    · cases h
  · split at h
    · split at h
      · rcases List.mem_singleton.mp h with rfl; exact ⟨rfl, rfl⟩
      · cases h
    · cases h

/-- Field characterisation of the first-version Never-Fills check: fills
    violations exist only at weight 8 and above, and the word-count violation
    that is HIGH instead of MEDIUM occurs only at weight 13 and above. -/
theorem mem_checkNeverFills1 (response : String) (w : Nat) (v : Gate1.Violation)
    (hv : v ∈ Gate1.checkNeverFills response w) :
    v.invariant = "NEVER_FILLS" ∧ 8 ≤ w ∧
      (v.severity = "MEDIUM" ∨ (v.severity = "HIGH" ∧ 13 ≤ w)) := by
  unfold Gate1.checkNeverFills at hv
  split at hv
  · rename_i hw
    rcases List.mem_append.mp hv with h | h
    · split at h
      · rcases List.mem_singleton.mp h with rfl
        exact ⟨rfl, hw, Or.inl rfl⟩
      · cases h
    · split at h
      · rename_i hcond
        rcases List.mem_singleton.mp h with rfl
        refine ⟨rfl, hw, Or.inr ⟨rfl, ?_⟩⟩
        have := (Bool.and_eq_true _ _).mp hcond
        exact of_decide_eq_true this.1
      · cases h
  · cases hv

/-- Field characterisation of the second-version Never-Fills check: only at
    weight 8 and above, always MEDIUM, and the recorded token count and limit
    are the actual measure against the weight-dependent ceiling. -/
theorem mem_checkNeverFills2 (response : String) (w : Nat) (v : Gate1.Violation)
    (hv : v ∈ Gate2.checkNeverFills response w) :
    v.invariant = "NEVER_FILLS" ∧ v.severity = "MEDIUM" ∧ 8 ≤ w ∧
      v.approxTokens = some (Gate2.approximateTokens response) ∧
      v.tokenLimit = some (Gate2.tokenLimitFor w) ∧
      Gate2.tokenLimitFor w < Gate2.approximateTokens response := by
  unfold Gate2.checkNeverFills at hv
  split at hv
  · cases hv
  · rename_i hw
    simp only [] at hv
    split at hv
    · rename_i hlim
      rcases List.mem_singleton.mp hv with rfl
      exact ⟨rfl, rfl, Nat.le_of_not_lt hw, rfl, rfl, hlim⟩
    · cases hv

/-- The violations of the first-version gate are exactly the concatenation of
    the five check outputs, so each violation belongs to one of them. -/
theorem mem_gate_violations (rm : String → String → Option String) (response : String)
    (cls : Gate1.GateInput) (v : Gate1.Violation)
    (hv : v ∈ (Gate1.enforceInvariants rm response cls).violations) :
    v ∈ Gate1.checkNeverAbandons rm response ∨
    v ∈ Gate1.checkAlwaysCalibrates rm response cls.weight cls.resistance ∨
    v ∈ Gate1.checkNeverJudges rm response ∨
    v ∈ Gate1.checkNeverFills response cls.weight ∨
    v ∈ Gate1.checkNeverNarrates rm response := by
  unfold Gate1.enforceInvariants at hv
  simp only at hv
  rcases List.mem_append.mp hv with h | h
  · rcases List.mem_append.mp h with h | h
    · rcases List.mem_append.mp h with h | h
      · rcases List.mem_append.mp h with h | h
        · exact Or.inl h
        · exact Or.inr (Or.inl h)
      · exact Or.inr (Or.inr (Or.inl h))
    · exact Or.inr (Or.inr (Or.inr (Or.inl h)))
  · exact Or.inr (Or.inr (Or.inr (Or.inr h)))

/-! ## Claim C1 -/

/-- Claim C1: for every response string and classification, the GateResult of
    enforceInvariants has pass true iff the collected violations list is
    empty, and requiresRegeneration true iff some collected violation has
    severity CRITICAL. -/
theorem gate_pass_and_regeneration_iff (rm : String → String → Option String)
    (response : String) (cls : Gate1.GateInput) :
    ((Gate1.enforceInvariants rm response cls).pass = true ↔
      (Gate1.enforceInvariants rm response cls).violations = []) ∧
    ((Gate1.enforceInvariants rm response cls).requiresRegeneration = true ↔
      ∃ v ∈ (Gate1.enforceInvariants rm response cls).violations, v.severity = "CRITICAL") := by
  unfold Gate1.enforceInvariants
  constructor
  · simp only [List.isEmpty_iff]
  · simp only [List.any_eq_true, beq_iff_eq]

/-! ## Claim C2 -/

/-- Claim C2: for every response matching at least one abandonment pattern
    and every classification, the gate reports a NEVER_ABANDONS violation of
    severity CRITICAL and requires regeneration. -/
theorem abandonment_forces_regeneration (rm : String → String → Option String)
    (response : String) (cls : Gate1.GateInput)
    (h : ∃ pat ∈ Gate1.ABANDONMENT_PATTERNS, (rm pat response).isSome = true) :
    (∃ v ∈ (Gate1.enforceInvariants rm response cls).violations,
      v.invariant = "NEVER_ABANDONS" ∧ v.severity = "CRITICAL") ∧
    (Gate1.enforceInvariants rm response cls).requiresRegeneration = true := by
  obtain ⟨v, hv, hinv, hsev⟩ :=
    scanPatterns_exists rm Gate1.ABANDONMENT_PATTERNS response "NEVER_ABANDONS" "CRITICAL"
      "No redirect, no referral, no exit. She stays." h
  have hvmem : v ∈ (Gate1.enforceInvariants rm response cls).violations := by
    unfold Gate1.enforceInvariants
    simp only
    exact List.mem_append_left _ (List.mem_append_left _ (List.mem_append_left _
      (List.mem_append_left _ hv)))
  refine ⟨⟨v, hvmem, hinv, hsev⟩, ?_⟩
  unfold Gate1.enforceInvariants at hvmem ⊢
  simp only [List.any_eq_true, beq_iff_eq]
  exact ⟨v, by simp only at hvmem; exact hvmem, hsev⟩

/-- Witness for C2 at a concrete matcher, response and classification. -/
theorem abandonment_forces_regeneration_witness :
    (∃ v ∈ (Gate1.enforceInvariants (fun _ _ => some "you should talk to a therapist")
        "I think you should talk to a therapist about this." ⟨21, []⟩).violations,
      v.invariant = "NEVER_ABANDONS" ∧ v.severity = "CRITICAL") ∧
    (Gate1.enforceInvariants (fun _ _ => some "you should talk to a therapist")
        "I think you should talk to a therapist about this." ⟨21, []⟩).requiresRegeneration
      = true :=
  abandonment_forces_regeneration (fun _ _ => some "you should talk to a therapist")
    "I think you should talk to a therapist about this." ⟨21, []⟩
    ⟨"/you should (talk to|see|speak with|consult|reach out to) (a |an )?(therapist|counselor|professional|doctor|psychiatrist|psychologist|specialist|someone)/i",
      by decide, rfl⟩

/-! ## Claim C5 -/

/-- Claim C5 (amended): Never-Fills violations are produced only at tier 8
    and above, in both gate versions; in the second (token-budget) version
    every Never-Fills violation is MEDIUM and records the approximate token
    count against the tier-dependent limit; in the first version the
    sentence-count violation is MEDIUM but the word-count violation at tier
    13 and above is HIGH; below tier 8 the first-version gate emits no
    NEVER_FILLS violation at all. -/
theorem neverFills_characterisation :
    (∀ (r : String) (w : Nat), w < 8 →
      Gate1.checkNeverFills r w = [] ∧ Gate2.checkNeverFills r w = []) ∧
    (∀ (r : String) (w : Nat) (v : Gate1.Violation), v ∈ Gate2.checkNeverFills r w →
      v.invariant = "NEVER_FILLS" ∧ v.severity = "MEDIUM" ∧ 8 ≤ w ∧
        v.approxTokens = some (Gate2.approximateTokens r) ∧
        v.tokenLimit = some (Gate2.tokenLimitFor w)) ∧
    (∀ (r : String) (w : Nat) (v : Gate1.Violation), v ∈ Gate1.checkNeverFills r w →
      v.invariant = "NEVER_FILLS" ∧ 8 ≤ w ∧
        (v.severity = "MEDIUM" ∨ (v.severity = "HIGH" ∧ 13 ≤ w))) ∧
    (∀ (rm : String → String → Option String) (r : String) (cls : Gate1.GateInput),
      cls.weight < 8 →
      ∀ v ∈ (Gate1.enforceInvariants rm r cls).violations, v.invariant ≠ "NEVER_FILLS") := by
  refine ⟨?_, ?_, ?_, ?_⟩
  · intro r w hw
    constructor
    · unfold Gate1.checkNeverFills
      rw [if_neg (by omega)]
    · unfold Gate2.checkNeverFills
      rw [if_pos hw]
  · intro r w v hv
    obtain ⟨h1, h2, h3, h4, h5, _⟩ := mem_checkNeverFills2 r w v hv
    exact ⟨h1, h2, h3, h4, h5⟩
  · intro r w v hv
    exact mem_checkNeverFills1 r w v hv
  · intro rm r cls hw v hv hfill
    rcases mem_gate_violations rm r cls v hv with h | h | h | h | h
    · have := (mem_scanPatterns rm _ r _ _ _ v h).1
      rw [hfill] at this; exact absurd this (by decide)
    · have := (mem_checkAlwaysCalibrates rm r cls.weight cls.resistance v h).1
      rw [hfill] at this; exact absurd this (by decide)
    · have := (mem_scanPatterns rm _ r _ _ _ v h).1
      rw [hfill] at this; exact absurd this (by decide)
    · have := (mem_checkNeverFills1 r cls.weight v h).2.1
      omega
    · have := (mem_scanPatterns rm _ r _ _ _ v h).1
      rw [hfill] at this; exact absurd this (by decide)

/-- Witness for C5 at concrete inputs: no fills violations at tier 3, and the
    token-budget violation fields at tier 13 on a long response. -/
theorem neverFills_characterisation_witness :
    (Gate1.checkNeverFills "hello there" 3 = [] ∧ Gate2.checkNeverFills "hello there" 3 = []) :=
  neverFills_characterisation.1 "hello there" 3 (by decide)

set_option maxRecDepth 8000 in
/-- Counterexample to C5 as stated: at tier 13, a 51-word single-sentence
    response makes the first-version gate emit a NEVER_FILLS violation of
    severity HIGH, not MEDIUM. -/
theorem neverFills_high_severity_counterexample :
    ∃ v ∈ (Gate1.enforceInvariants (fun _ _ => none)
        (String.intercalate " " (List.replicate 51 "w")) ⟨13, []⟩).violations,
      v.invariant = "NEVER_FILLS" ∧ v.severity = "HIGH" ∧ v.severity ≠ "MEDIUM" := by
  decide

/-! ## Helper lemmas about the classifier -/

/-- Every base dimension carries one of the three fixed tier weights. -/
theorem mem_baseDimensions_weight (p s ph : DimScore) (d : Dimension)
    (hd : d ∈ baseDimensions p s ph) : d.weight = 21 ∨ d.weight = 13 ∨ d.weight = 8 := by
  unfold baseDimensions at hd
  rcases List.mem_append.mp hd with h | h
  · rcases List.mem_append.mp h with h2 | h2
    · split at h2
      · rcases List.mem_singleton.mp h2 with rfl; exact Or.inl rfl
      · cases h2
    · split at h2
      · rcases List.mem_singleton.mp h2 with rfl; exact Or.inr (Or.inl rfl)
      · cases h2
  · split at h
    · rcases List.mem_singleton.mp h with rfl; exact Or.inr (Or.inr rfl)
    · cases h

/-- Depth elevation only rewrites weights to 21 or 13, so the tier-weight
    range of the dimensions list is preserved. -/
theorem mem_elevateDimensions_weight (cd : ConfessionDepth) (dims : List Dimension)
    (h : ∀ x ∈ dims, x.weight = 21 ∨ x.weight = 13 ∨ x.weight = 8) (d : Dimension)
    (hd : d ∈ elevateDimensions cd dims) : d.weight = 21 ∨ d.weight = 13 ∨ d.weight = 8 := by
  cases dims with
  | nil => cases hd
  | cons d0 rest =>
      simp only [elevateDimensions] at hd
      split at hd
      · rcases List.mem_cons.mp hd with rfl | hmem
        · exact Or.inl rfl
        · exact h d (List.mem_cons_of_mem d0 hmem)
      · split at hd
        · rcases List.mem_cons.mp hd with rfl | hmem
          · exact Or.inr (Or.inl rfl)
          · exact h d (List.mem_cons_of_mem d0 hmem)
        · exact h d hd

/-- The head of the descending merge sort used by classifyMessage is a member
    of the list and carries its maximal weight. -/
theorem mergeSort_head_max (l : List Dimension) (top : Dimension) (rest : List Dimension)
    (heq : l.mergeSort (fun a b => decide (b.weight ≤ a.weight)) = top :: rest) :
    top ∈ l ∧ ∀ d ∈ l, d.weight ≤ top.weight := by
  have htop : top ∈ l := by
    have h1 : top ∈ l.mergeSort (fun a b => decide (b.weight ≤ a.weight)) := by
      rw [heq]; exact List.mem_cons_self _ _
    exact List.mem_mergeSort.mp h1
  refine ⟨htop, fun d hd => ?_⟩
  have hmem : d ∈ top :: rest := by
    rw [← heq]
    exact List.mem_mergeSort.mpr hd
  rcases List.mem_cons.mp hmem with rfl | hmem2
  · exact Nat.le_refl _
  · have hsorted :=
      @List.sorted_mergeSort _ (fun a b => decide (b.weight ≤ a.weight))
        (by intro a b c hab hbc
            exact decide_eq_true (Nat.le_trans (of_decide_eq_true hbc) (of_decide_eq_true hab)))
        (by intro a b
            rcases Nat.le_total b.weight a.weight with h | h
            · simp [h]
            · simp [h])
        l
    rw [heq] at hsorted
    have := (List.pairwise_cons.mp hsorted).1 d hmem2
    exact of_decide_eq_true this

/-- The covenant flag of detectConfessionDepth is exactly the test that at
    least 3 depth categories matched. -/
theorem detectConfessionDepth_isCovenant (message : String) :
    (detectConfessionDepth message).isCovenant = true ↔
      3 ≤ (detectConfessionDepth message).depth := by
  unfold detectConfessionDepth
  simp only [decide_eq_true_eq]

/-- The deep flag of detectConfessionDepth is exactly the test that at least
    2 depth categories matched. -/
theorem detectConfessionDepth_isDeep (message : String) :
    (detectConfessionDepth message).isDeep = true ↔
      2 ≤ (detectConfessionDepth message).depth := by
  unfold detectConfessionDepth
  simp only [decide_eq_true_eq]

/-- A qualifying dimension makes the base dimensions list nonempty. -/
theorem baseDimensions_ne_nil (p s ph : DimScore)
    (hdim : 1/10 < p.score ∨ 1/10 < s.score ∨ 1/10 < ph.score) :
    baseDimensions p s ph ≠ [] := by
  intro h
  unfold baseDimensions at h
  rcases List.append_eq_nil.mp h with ⟨h12, h3⟩
  rcases List.append_eq_nil.mp h12 with ⟨h1, h2⟩
  rcases hdim with hq | hq | hq
  · rw [if_pos hq] at h1; cases h1
  · rw [if_pos hq] at h2; cases h2
  · rw [if_pos hq] at h3; cases h3

/-! ## Claim C10 -/

/-- Claim C10: for every input string the weight returned by classifyMessage
    lies in the set 1, 3, 8, 13, 21; in particular tier 5 is never produced
    by classification. -/
theorem classify_weight_in_tier_set (message : String) :
    (classifyMessage message).weight ∈ ([1, 3, 8, 13, 21] : List Nat) ∧
    (classifyMessage message).weight ≠ 5 := by
  have key : (classifyMessage message).weight ∈ ([1, 3, 8, 13, 21] : List Nat) := by
    unfold classifyMessage
    split
    · simp
    · simp only []
      split
      · simp
      · rename_i top restSorted heq
        have hmax := mergeSort_head_max _ top restSorted heq
        have hw :=
          mem_elevateDimensions_weight _ _
            (mem_baseDimensions_weight (detectPsychology message) (detectSociology message)
              (detectPhysiology message))
            top hmax.1
        rcases hw with h | h | h <;> simp [h]
  refine ⟨key, ?_⟩
  have := key
  simp only [List.mem_cons, List.not_mem_nil, or_false] at this
  omega

/-! ## Claim C3 -/

/-- Claim C3 (amended, restricted to utterances not captured by the noise
    gate): when at least 3 depth-marker categories match and some dimension
    qualifies, classifyMessage returns weight 21 with a covenant confession
    depth; when exactly 2 depth-marker categories match and some dimension
    qualifies, the returned weight is at least 13. -/
theorem depth_elevation_classifies (message : String)
    (hn : isNoise message = false)
    (hdim : 1/10 < (detectPsychology message).score ∨
      1/10 < (detectSociology message).score ∨ 1/10 < (detectPhysiology message).score) :
    (3 ≤ (detectConfessionDepth message).depth →
      (classifyMessage message).weight = 21 ∧
      (classifyMessage message).confessionDepth.isCovenant = true) ∧
    ((detectConfessionDepth message).depth = 2 → 13 ≤ (classifyMessage message).weight) := by
  obtain ⟨d0, rest, hbase⟩ :=
    List.exists_cons_of_ne_nil
      (baseDimensions_ne_nil (detectPsychology message) (detectSociology message)
        (detectPhysiology message) hdim)
  have hweights :=
    mem_baseDimensions_weight (detectPsychology message) (detectSociology message)
      (detectPhysiology message)
  constructor
  · intro hdepth
    have hcov : (detectConfessionDepth message).isCovenant = true :=
      (detectConfessionDepth_isCovenant message).mpr hdepth
    have helev :
        elevateDimensions (detectConfessionDepth message)
            (baseDimensions (detectPsychology message) (detectSociology message)
              (detectPhysiology message)) =
          { d0 with weight := 21, elevatedByDepth := true } :: rest := by
      rw [hbase]
      simp only [elevateDimensions]
      rw [if_pos hcov]
    have hmem21 : { d0 with weight := 21, elevatedByDepth := true } ∈
        elevateDimensions (detectConfessionDepth message)
          (baseDimensions (detectPsychology message) (detectSociology message)
            (detectPhysiology message)) := by
      rw [helev]; exact List.mem_cons_self _ _
    unfold classifyMessage
    rw [hn]
    simp only [Bool.false_eq_true, if_false]
    split
    · rename_i heq
      have : elevateDimensions (detectConfessionDepth message)
          (baseDimensions (detectPsychology message) (detectSociology message)
            (detectPhysiology message)) = [] := by
        have hl := congrArg List.length heq
        rw [List.length_mergeSort] at hl
        exact List.length_eq_zero.mp hl
      rw [helev] at this; cases this
    · rename_i top restSorted heq
      have hmax := mergeSort_head_max _ top restSorted heq
      have htle : top.weight ≤ 21 := by
        have := mem_elevateDimensions_weight _ _ hweights top hmax.1
        omega
      have h21le : 21 ≤ top.weight := by
        have := hmax.2 _ hmem21
        simpa using this
      refine ⟨?_, hcov⟩
      show top.weight = 21
      omega
  · intro hdepth
    have hcov : (detectConfessionDepth message).isCovenant = false := by
      rcases Bool.eq_false_or_eq_true (detectConfessionDepth message).isCovenant with h | h
      · have := (detectConfessionDepth_isCovenant message).mp h
        omega
      · exact h
    obtain ⟨d1, helev, hd1w⟩ :
        ∃ d1, elevateDimensions (detectConfessionDepth message)
            (baseDimensions (detectPsychology message) (detectSociology message)
              (detectPhysiology message)) = d1 :: rest ∧ 13 ≤ d1.weight := by
      have hdeep : (detectConfessionDepth message).isDeep = true :=
        (detectConfessionDepth_isDeep message).mpr (by omega)
      rw [hbase]
      simp only [elevateDimensions]
      rw [if_neg (by rw [hcov]; exact Bool.false_ne_true)]
      by_cases hlt : d0.weight < 13
      · rw [if_pos (by rw [hdeep]; simpa using hlt)]
        exact ⟨_, rfl, by simp⟩
      · rw [if_neg (by rw [hdeep]; simpa using hlt)]
        exact ⟨d0, rfl, by omega⟩
    have hmemd1 : d1 ∈
        elevateDimensions (detectConfessionDepth message)
          (baseDimensions (detectPsychology message) (detectSociology message)
            (detectPhysiology message)) := by
      rw [helev]; exact List.mem_cons_self _ _
    unfold classifyMessage
    rw [hn]
    simp only [Bool.false_eq_true, if_false]
    split
    · rename_i heq
      have : elevateDimensions (detectConfessionDepth message)
          (baseDimensions (detectPsychology message) (detectSociology message)
            (detectPhysiology message)) = [] := by
        have hl := congrArg List.length heq
        rw [List.length_mergeSort] at hl
        exact List.length_eq_zero.mp hl
      rw [helev] at this; cases this
    · rename_i top restSorted heq
      have hmax := mergeSort_head_max _ top restSorted heq
      have := hmax.2 _ hmemd1
      show 13 ≤ top.weight
      omega

/-- Witness for C3 at a concrete covenant-level utterance. -/
theorem depth_elevation_classifies_witness :
    (classifyMessage "i admit i still feel worthless as a kid").weight = 21 ∧
    (classifyMessage "i admit i still feel worthless as a kid").confessionDepth.isCovenant
      = true :=
  (depth_elevation_classifies "i admit i still feel worthless as a kid"
    (by decide) (Or.inl (by with_unfolding_all decide))).1 (by decide)

set_option maxRecDepth 4000 in
/-- Counterexample to C3 as stated: this utterance has 3 matched depth-marker
    categories and a qualifying psychology dimension, yet the noise gate
    short-circuits classifyMessage to weight 1 with a blank confession depth. -/
theorem depth_elevation_noise_counterexample :
    3 ≤ (detectConfessionDepth "whats still admit such afraid time").depth ∧
    1/10 < (detectPsychology "whats still admit such afraid time").score ∧
    (classifyMessage "whats still admit such afraid time").weight = 1 ∧
    (classifyMessage "whats still admit such afraid time").confessionDepth.isCovenant
      = false := by
  with_unfolding_all decide

/-! ## Helper lemmas about whitespace-only input -/

/-- A character-list prefix is a subset of the list. -/
theorem prefB_subset : ∀ (n h : List Char), prefB n h = true → ∀ c ∈ n, c ∈ h := by
  intro n
  induction n with
  | nil => intro h _ c hc; cases hc
  | cons a as ih =>
      intro h hp c hc
      cases h with
      | nil => cases hp
      | cons b bs =>
          have hab := (Bool.and_eq_true _ _).mp hp
          have hb : a = b := by simpa using hab.1
          rcases List.mem_cons.mp hc with rfl | hmem
          · rw [hb]; exact List.mem_cons_self _ _
          · exact List.mem_cons_of_mem _ (ih bs hab.2 c hmem)

/-- A character-list infix is a subset of the list. -/
theorem subB_subset : ∀ (h n : List Char), subB n h = true → ∀ c ∈ n, c ∈ h := by
  intro h
  induction h with
  | nil =>
      intro n hs c hc
      have : n = [] := by simpa [subB, List.isEmpty_iff] using hs
      subst this; cases hc
  | cons b bs ih =>
      intro n hs c hc
      rcases (Bool.or_eq_true _ _).mp (by simpa [subB] using hs) with hp | hi
      · exact prefB_subset n (b :: bs) hp c hc
      · exact List.mem_cons_of_mem _ (ih n hi c hc)

/-- A needle containing a non-whitespace character never occurs in a
    whitespace-only haystack. -/
theorem incl_eq_false_of_ws (hay needle : String)
    (hws : ∀ c ∈ hay.toList, c.isWhitespace = true)
    (hn : ∃ c ∈ needle.toList, c.isWhitespace = false) : incl hay needle = false := by
  rcases Bool.eq_false_or_eq_true (incl hay needle) with h | h
  · obtain ⟨c, hc, hcw⟩ := hn
    have := subB_subset hay.toList needle.toList h c hc
    rw [hws c this] at hcw
    cases hcw
  · exact h

/-- Lowering a whitespace character is the identity. -/
theorem char_toLower_ws (c : Char) (h : c.isWhitespace = true) : c.toLower = c := by
  simp only [Char.isWhitespace, Bool.or_eq_true, decide_eq_true_eq] at h
  rcases h with ((rfl | rfl) | rfl) | rfl <;> decide

/-- The character list of jsToLower is the mapped character list. -/
theorem jsToLower_toList (s : String) :
    (jsToLower s).toList = s.toList.map Char.toLower := rfl

/-- jsToLower preserves whitespace-only strings. -/
theorem jsToLower_ws (s : String) (hs : ∀ c ∈ s.toList, c.isWhitespace = true) :
    ∀ c ∈ (jsToLower s).toList, c.isWhitespace = true := by
  intro c hc
  rw [jsToLower_toList] at hc
  obtain ⟨c0, hc0, rfl⟩ := List.mem_map.mp hc
  rw [char_toLower_ws c0 (hs c0 hc0)]
  exact hs c0 hc0

/-- jsTrim of a whitespace-only string is empty. -/
theorem jsTrim_ws (s : String) (hs : ∀ c ∈ s.toList, c.isWhitespace = true) :
    jsTrim s = "" := by
  unfold jsTrim
  have h1 : s.toList.dropWhile Char.isWhitespace = [] :=
    List.dropWhile_eq_nil_iff.mpr (fun x hx => hs x hx)
  rw [h1]
  rfl

/-- isNoise rejects whitespace-only strings: the trimmed lowercase text is
    empty, matches no noise phrase, and equals no noise phrase. -/
theorem isNoise_ws (s : String) (hs : ∀ c ∈ s.toList, c.isWhitespace = true) :
    isNoise s = false := by
  have h1 : jsTrim (jsToLower s) = "" := jsTrim_ws _ (jsToLower_ws s hs)
  unfold isNoise
  rw [h1]
  decide

/-- A keyword table scan over text matching no keyword leaves the
    accumulator unchanged. -/
theorem scanTable_foldl_no_match (lower : String) (inc : Rat) :
    ∀ (table : List (String × String × List String)),
      (∀ entry ∈ table, ∀ kw ∈ entry.2.2, incl lower kw = false) →
      ∀ acc : DimScore,
        table.foldl
          (fun acc entry =>
            match entry.2.2.find? (fun kw => incl lower kw) with
            | some kw =>
                { score := acc.score + inc
                  categories := acc.categories ++ [entry.1]
                  markers := acc.markers ++ [{ category := entry.1, keyword := kw,
                                               description := entry.2.1 }] }
            | none => acc) acc = acc := by
  intro table
  induction table with
  | nil => intro _ acc; rfl
  | cons e es ih =>
      intro h acc
      rw [List.foldl_cons]
      have hfind : e.2.2.find? (fun kw => incl lower kw) = none :=
        List.find?_eq_none.mpr (fun kw hkw => by
          rw [h e (List.mem_cons_self _ _) kw hkw]; exact Bool.false_ne_true)
      simp only [hfind]
      exact ih (fun x hx kw hkw => h x (List.mem_cons_of_mem _ hx) kw hkw) acc

/-- A keyword table scan over text matching no keyword returns the empty
    score. -/
theorem scanTable_no_match (lower : String) (inc : Rat)
    (table : List (String × String × List String))
    (h : ∀ entry ∈ table, ∀ kw ∈ entry.2.2, incl lower kw = false) :
    scanTable lower inc table = { score := 0, categories := [], markers := [] } :=
  scanTable_foldl_no_match lower inc table h _

/-- The psychology score of a whitespace-only message is zero. -/
theorem detectPsychology_ws (s : String) (hs : ∀ c ∈ s.toList, c.isWhitespace = true) :
    (detectPsychology s).score = 0 := by
  have hlw := jsToLower_ws s hs
  have hne : ∀ entry ∈ PSYCH_TABLE, ∀ kw ∈ entry.2.2, ∃ c ∈ kw.toList,
      c.isWhitespace = false := by decide
  have htab : ∀ entry ∈ PSYCH_TABLE, ∀ kw ∈ entry.2.2, incl (jsToLower s) kw = false :=
    fun entry he kw hkw => incl_eq_false_of_ws _ _ hlw (hne entry he kw hkw)
  have hfusne : ∀ p ∈ [ "i\x27m a ", "i\x27m an ", "i\x27m such a ", "i\x27m so "
      , "i am a ", "i am an ", "i am such a ", "i am so " ],
      ∃ c ∈ p.toList, c.isWhitespace = false := by decide
  have hfus : identityFusionHit (jsToLower s) = false := by
    unfold identityFusionHit
    rw [List.any_eq_false]
    intro p hp
    rw [incl_eq_false_of_ws _ _ hlw (hfusne p hp)]
    exact Bool.false_ne_true
  unfold detectPsychology
  simp only []
  rw [scanTable_no_match _ _ _ htab]
  rw [if_neg (by rw [hfus]; exact Bool.false_ne_true)]
  show min (0 : Rat) 1 = 0
  exact min_eq_left (by norm_num)

/-- The sociology score of a whitespace-only message is zero. -/
theorem detectSociology_ws (s : String) (hs : ∀ c ∈ s.toList, c.isWhitespace = true) :
    (detectSociology s).score = 0 := by
  have hlw := jsToLower_ws s hs
  have hne : ∀ entry ∈ SOCIO_TABLE, ∀ kw ∈ entry.2.2, ∃ c ∈ kw.toList,
      c.isWhitespace = false := by decide
  have htab : ∀ entry ∈ SOCIO_TABLE, ∀ kw ∈ entry.2.2, incl (jsToLower s) kw = false :=
    fun entry he kw hkw => incl_eq_false_of_ws _ _ hlw (hne entry he kw hkw)
  unfold detectSociology
  simp only []
  rw [scanTable_no_match _ _ _ htab]
  show min (0 : Rat) 1 = 0
  exact min_eq_left (by norm_num)

/-- The physiology score of a whitespace-only message is zero. -/
theorem detectPhysiology_ws (s : String) (hs : ∀ c ∈ s.toList, c.isWhitespace = true) :
    (detectPhysiology s).score = 0 := by
  have hlw := jsToLower_ws s hs
  have hne : ∀ entry ∈ PHYS_TABLE, ∀ kw ∈ entry.2.2, ∃ c ∈ kw.toList,
      c.isWhitespace = false := by decide
  have htab : ∀ entry ∈ PHYS_TABLE, ∀ kw ∈ entry.2.2, incl (jsToLower s) kw = false :=
    fun entry he kw hkw => incl_eq_false_of_ws _ _ hlw (hne entry he kw hkw)
  unfold detectPhysiology
  simp only []
  rw [scanTable_no_match _ _ _ htab]
  show min (0 : Rat) 1 = 0
  exact min_eq_left (by norm_num)

/-! ## Claim C6 -/

/-- Claim C6 (amended): an empty or whitespace-only utterance is not matched
    by the noise gate; every detector scores zero, so classifyMessage falls
    through to the tier-3 context fallback. -/
theorem whitespace_classifies_context (s : String)
    (hs : ∀ c ∈ s.toList, c.isWhitespace = true) :
    (classifyMessage s).weight = 3 ∧ (classifyMessage s).dimension = "context" ∧
    (classifyMessage s).isNoise = false := by
  have hn := isNoise_ws s hs
  have hbase : baseDimensions (detectPsychology s) (detectSociology s)
      (detectPhysiology s) = [] := by
    unfold baseDimensions
    rw [detectPsychology_ws s hs, detectSociology_ws s hs, detectPhysiology_ws s hs]
    rw [if_neg (by norm_num), if_neg (by norm_num), if_neg (by norm_num)]
    rfl
  unfold classifyMessage
  rw [hn]
  simp only [Bool.false_eq_true, if_false]
  rw [hbase]
  simp [elevateDimensions, List.mergeSort_nil]

/-- Witness for the amended C6 at a concrete whitespace-only input. -/
theorem whitespace_classifies_context_witness :
    (classifyMessage "  ").weight = 3 ∧ (classifyMessage "  ").dimension = "context" ∧
    (classifyMessage "  ").isNoise = false :=
  whitespace_classifies_context "  " (by decide)

/-- Counterexample to C6 as stated: the empty utterance is classified as
    weight 3 context, not weight 1 noise. -/
theorem empty_not_noise_counterexample :
    (classifyMessage "").weight ≠ 1 ∧ (classifyMessage "").dimension ≠ "noise" ∧
    (classifyMessage "").weight = 3 ∧ (classifyMessage "").dimension = "context" := by
  with_unfolding_all decide

/-! ## Claim C7 -/

/-- Claim C7: over the defined tiers, both response-length budgets (the
    token limit of the second-version gate and the word ceiling of
    getLengthConstraint) are monotonically non-increasing as the tier rises
    past 8, and each getLengthConstraint string states its word ceiling. -/
theorem budget_monotone :
    (∀ t1 ∈ TIERS, ∀ t2 ∈ TIERS, t1 < t2 → 8 ≤ t2 →
      wordCeiling t2 ≤ wordCeiling t1 ∧
      (8 ≤ t1 → Gate2.tokenLimitFor t2 ≤ Gate2.tokenLimitFor t1)) ∧
    (∀ t ∈ TIERS,
      incl (getLengthConstraint t) ("Under " ++ toString (wordCeiling t)) = true) := by
  decide

/-- Witness for C7 at the concrete tier pair 8 and 13. -/
theorem budget_monotone_witness :
    wordCeiling 13 ≤ wordCeiling 8 ∧
      (8 ≤ 8 → Gate2.tokenLimitFor 13 ≤ Gate2.tokenLimitFor 8) :=
  budget_monotone.1 8 (by decide) 13 (by decide) (by decide) (by decide)

/-! ## Bounds of the accumulator arithmetic -/

/-- The reinforced conductance stays in the unit interval when the prior
    conductance does. -/
theorem reinforcedConductance_bounds (cls : Classification) (c : Rat) (h0 : 0 ≤ c)
    (_h1 : c ≤ 1) : 0 ≤ reinforcedConductance cls c ∧ reinforcedConductance cls c ≤ 1 := by
  unfold reinforcedConductance weightMultiplier depthBonus
  have hmax : CONDUCTANCE_CONFIG.maxConductance = 1 := rfl
  have hrate : CONDUCTANCE_CONFIG.reinforcementRate = 15/100 := rfl
  rw [hmax, hrate]
  constructor
  · apply le_min (by norm_num)
    split_ifs <;> nlinarith
  · exact min_le_left _ _

/-- The reinforced conductance strictly exceeds a prior conductance that is
    nonnegative and below the ceiling. -/
theorem reinforcedConductance_gt (cls : Classification) (c : Rat) (_h0 : 0 ≤ c)
    (h1 : c < 1) : c < reinforcedConductance cls c := by
  unfold reinforcedConductance weightMultiplier depthBonus
  have hmax : CONDUCTANCE_CONFIG.maxConductance = 1 := rfl
  have hrate : CONDUCTANCE_CONFIG.reinforcementRate = 15/100 := rfl
  rw [hmax, hrate]
  apply lt_min h1
  split_ifs <;> nlinarith

/-- The reinforced conductance is always above the landscape visibility
    threshold when the prior conductance is nonnegative. -/
theorem reinforcedConductance_vis (cls : Classification) (c : Rat) (hc0 : 0 ≤ c) :
    1/100 < reinforcedConductance cls c := by
  unfold reinforcedConductance weightMultiplier depthBonus
  have hmax : CONDUCTANCE_CONFIG.maxConductance = 1 := rfl
  have hrate : CONDUCTANCE_CONFIG.reinforcementRate = 15/100 := rfl
  rw [hmax, hrate]
  apply lt_min (by norm_num)
  split_ifs <;> nlinarith

/-- The seed conductance of a new pathway is positive, visible and at most
    one. -/
theorem initialConductance_bounds (w : Nat) :
    1/100 < initialConductance w ∧ 0 < initialConductance w ∧ initialConductance w ≤ 1 := by
  unfold initialConductance
  split_ifs <;> norm_num

/-- The conductance written by the decay step stays in the unit interval
    when the prior conductance does, for any exponential stand-in bounded in
    [0, 1] on nonpositive arguments. -/
theorem decayPathway_bounds (e : Rat → Rat)
    (he : ∀ x : Rat, x ≤ 0 → 0 ≤ e x ∧ e x ≤ 1) (now : Rat) (q : Pathway)
    (hq : 0 ≤ q.conductance ∧ q.conductance ≤ 1) :
    0 ≤ (decayPathway e now q).conductance ∧ (decayPathway e now q).conductance ≤ 1 := by
  unfold decayPathway
  simp only []
  split
  · exact hq
  · rename_i hd
    have hdge : (1 : Rat) ≤ daysSince now q.lastReinforced := not_lt.mp hd
    have hexp := he (-(CONDUCTANCE_CONFIG.decayRate * daysSince now q.lastReinforced))
      (by
        have hrate : CONDUCTANCE_CONFIG.decayRate = 2/100 := rfl
        rw [hrate]
        nlinarith)
    split
    · constructor
      · exact le_max_left _ _
      · apply max_le (by norm_num [CONDUCTANCE_CONFIG])
        nlinarith [hq.1, hq.2, hexp.1, hexp.2]
    · exact hq

/-- Case analysis of reinforcePathway: it is a no-op, reinforces a found
    row, or inserts a fresh row. -/
theorem reinforcePathway_cases (now : Rat) (u : String) (cls : Classification)
    (store : Store) :
    reinforcePathway now u cls store = (none, store) ∨
    (∃ p0 ∈ store, reinforcePathway now u cls store =
      (some (reinforcedRow now cls p0),
       store.map (fun p => if p.id == p0.id then reinforcedRow now cls p0 else p))) ∨
    (∃ th, reinforcePathway now u cls store =
      (some (freshRow now u cls th store), store ++ [freshRow now u cls th store])) := by
  unfold reinforcePathway
  split
  · exact Or.inl rfl
  · split
    · exact Or.inl rfl
    · split
      · exact Or.inl rfl
      · rename_i th _
        split
        · rename_i p0 hfind
          exact Or.inr (Or.inl ⟨p0, List.mem_of_find?_eq_some hfind, rfl⟩)
        · exact Or.inr (Or.inr ⟨th, rfl⟩)

/-! ## Claim C9 -/

/-- Claim C9: every conductance value written by the accumulator (the
    returned row and every stored row after a reinforce, and every row after
    a decay pass) lies in [0, maxConductance] = [0, 1], for every starting
    store inside the unit interval, every classification, every timestamp,
    and every exponential stand-in bounded by [0, 1] on nonpositive
    arguments. -/
theorem conductance_clamped (e : Rat → Rat)
    (he : ∀ x : Rat, x ≤ 0 → 0 ≤ e x ∧ e x ≤ 1) (now : Rat) (u : String)
    (cls : Classification) (store : Store)
    (hstore : ∀ p ∈ store, 0 ≤ p.conductance ∧ p.conductance ≤ 1) :
    (∀ q, (reinforcePathway now u cls store).1 = some q →
      0 ≤ q.conductance ∧ q.conductance ≤ 1) ∧
    (∀ p ∈ (reinforcePathway now u cls store).2, 0 ≤ p.conductance ∧ p.conductance ≤ 1) ∧
    (∀ p ∈ applyDecay e now u store, 0 ≤ p.conductance ∧ p.conductance ≤ 1) := by
  refine ⟨?_, ?_, ?_⟩
  · intro q hq
    rcases reinforcePathway_cases now u cls store with hre | ⟨p0, hp0, hre⟩ | ⟨th, hre⟩
    · rw [hre] at hq; cases hq
    · rw [hre] at hq
      have hq' : q = reinforcedRow now cls p0 := by
        simpa using hq.symm
      rw [hq']
      exact reinforcedConductance_bounds cls p0.conductance (hstore p0 hp0).1 (hstore p0 hp0).2
    · rw [hre] at hq
      have hq' : q = freshRow now u cls th store := by
        simpa using hq.symm
      rw [hq']
      have h := initialConductance_bounds cls.weight
      exact ⟨le_of_lt h.2.1, h.2.2⟩
  · intro p hp
    rcases reinforcePathway_cases now u cls store with hre | ⟨p0, hp0, hre⟩ | ⟨th, hre⟩
    · rw [hre] at hp; exact hstore p hp
    · rw [hre] at hp
      obtain ⟨a, ha, hpa⟩ := List.mem_map.mp hp
      by_cases hid : (a.id == p0.id) = true
      · rw [if_pos hid] at hpa
        rw [← hpa]
        exact reinforcedConductance_bounds cls p0.conductance (hstore p0 hp0).1 (hstore p0 hp0).2
      · rw [if_neg hid] at hpa
        rw [← hpa]
        exact hstore a ha
    · rw [hre] at hp
      rcases List.mem_append.mp hp with h | h
      · exact hstore p h
      · rcases List.mem_singleton.mp h with rfl
        have h := initialConductance_bounds cls.weight
        exact ⟨le_of_lt h.2.1, h.2.2⟩
  · intro p hp
    unfold applyDecay prunePathways at hp
    simp only [] at hp
    have hp2 := List.mem_filter.mp hp
    obtain ⟨a, ha, hpa⟩ := List.mem_map.mp hp2.1
    by_cases hau : (a.userId == u) = true
    · rw [if_pos hau] at hpa
      rw [← hpa]
      exact decayPathway_bounds e he now a (hstore a ha)
    · rw [if_neg hau] at hpa
      rw [← hpa]
      exact hstore a ha

/-- Witness for C9: the seed row written for a fresh user lies in the unit
    interval. -/
theorem conductance_clamped_witness :
    0 ≤ (freshRow 0 "u" (classifyMessage "i am afraid") "identity" []).conductance ∧
    (freshRow 0 "u" (classifyMessage "i am afraid") "identity" []).conductance ≤ 1 :=
  (conductance_clamped (fun _ => 1/2)
    (by intro x _; constructor <;> norm_num) 0 "u" (classifyMessage "i am afraid") []
    (by intro p hp; cases hp)).1
    (freshRow 0 "u" (classifyMessage "i am afraid") "identity" [])
    (by with_unfolding_all decide)

/-! ## Claim C8 -/

/-- Claim C8 (amended): for a nonempty user id, a store with distinct row
    ids, fewer than 50 rows of the user, and nonnegative conductances, a
    classification of tier at least 5 with an extractable theme reinforces
    and the immediately loaded landscape shows that user/dimension/theme
    with conductance strictly greater than before whenever the prior
    conductance was below the ceiling 1 (at the ceiling it stays exactly 1);
    with no prior row it shows a freshly seeded positive conductance; and
    for tier below 5 reinforcePathway returns null and leaves the store
    untouched. -/
theorem reinforce_then_load_roundtrip (e : Rat → Rat) (now : Rat) (u : String)
    (cls : Classification) (store : Store) (hu : u ≠ "")
    (hids : (store.map (fun p => p.id)).Nodup)
    (hcount : (store.filter (fun p => p.userId == u)).length < 50)
    (hpos : ∀ p ∈ store, 0 ≤ p.conductance)
    (th : String) (hth : extractTheme cls = some th) (hw : 5 ≤ cls.weight) :
    (∀ p0, store.find? (fun p =>
        p.userId == u && p.dimension == cls.dimension && p.theme == th) = some p0 →
      p0.conductance < 1 →
      ∃ q ∈ (loadConductanceLandscape e now u (reinforcePathway now u cls store).2).1,
        q.dimension = cls.dimension ∧ q.theme = th ∧ p0.conductance < q.conductance) ∧
    (store.find? (fun p =>
        p.userId == u && p.dimension == cls.dimension && p.theme == th) = none →
      ∃ q ∈ (loadConductanceLandscape e now u (reinforcePathway now u cls store).2).1,
        q.dimension = cls.dimension ∧ q.theme = th ∧ 0 < q.conductance) ∧
    (∀ cls2 : Classification, cls2.weight < 5 →
      reinforcePathway now u cls2 store = (none, store)) := by
  have hw' : ¬ cls.weight < 5 := by omega
  refine ⟨?_, ?_, ?_⟩
  · intro p0 hfind hcl
    have hre : (reinforcePathway now u cls store).2 =
        store.map (fun p => if p.id == p0.id then reinforcedRow now cls p0 else p) := by
      unfold reinforcePathway
      rw [if_neg hu, if_neg hw']
      simp only [hth, hfind]
    have hp0mem : p0 ∈ store := List.mem_of_find?_eq_some hfind
    have hpred := List.find?_some hfind
    have hsplit := (Bool.and_eq_true _ _).mp hpred
    have hsplit2 := (Bool.and_eq_true _ _).mp hsplit.1
    have hpu : p0.userId = u := by simpa using hsplit2.1
    have hpd : p0.dimension = cls.dimension := by simpa using hsplit2.2
    have hpt : p0.theme = th := by simpa using hsplit.2
    rw [hre]
    have hrowmem : reinforcedRow now cls p0 ∈
        store.map (fun p => if p.id == p0.id then reinforcedRow now cls p0 else p) :=
      List.mem_map.mpr ⟨p0, hp0mem, by rw [if_pos (by simp)]⟩
    have hmapcount : ((store.map (fun p =>
        if p.id == p0.id then reinforcedRow now cls p0 else p)).filter
          (fun q => q.userId == u)).length ≤ 50 := by
      rw [length_filter_map_eq]
      · omega
      · intro a ha
        show ((if a.id == p0.id then reinforcedRow now cls p0 else a).userId == u)
          = (a.userId == u)
        by_cases hid : (a.id == p0.id) = true
        · have haeq : a = p0 :=
            List.inj_on_of_nodup_map hids ha hp0mem (by simpa using hid)
          rw [if_pos hid, haeq]
          rfl
        · rw [if_neg hid]
    obtain ⟨q, hqmem, hqd, hqt, hqc⟩ :=
      mem_landscape_of_fresh e now u
        (store.map (fun p => if p.id == p0.id then reinforcedRow now cls p0 else p)) hu
        (reinforcedRow now cls p0) hrowmem rfl hpu
        (reinforcedConductance_vis cls p0.conductance (hpos p0 hp0mem)) hmapcount
    refine ⟨q, hqmem, ?_, ?_, ?_⟩
    · rw [hqd]; exact hpd
    · rw [hqt]; exact hpt
    · rw [hqc]
      exact reinforcedConductance_gt cls p0.conductance (hpos p0 hp0mem) hcl
  · intro hfind
    have hre : (reinforcePathway now u cls store).2 =
        store ++ [freshRow now u cls th store] := by
      unfold reinforcePathway
      rw [if_neg hu, if_neg hw']
      simp only [hth, hfind]
    rw [hre]
    have hrowmem : freshRow now u cls th store ∈ store ++ [freshRow now u cls th store] :=
      List.mem_append_right _ (List.mem_singleton.mpr rfl)
    have happcount : ((store ++ [freshRow now u cls th store]).filter
        (fun q => q.userId == u)).length ≤ 50 := by
      rw [List.filter_append, List.length_append]
      have h1 := List.length_filter_le (fun q => q.userId == u) [freshRow now u cls th store]
      simp only [List.length_singleton] at h1
      omega
    have hvis := (initialConductance_bounds cls.weight).1
    obtain ⟨q, hqmem, hqd, hqt, hqc⟩ :=
      mem_landscape_of_fresh e now u (store ++ [freshRow now u cls th store]) hu
        (freshRow now u cls th store) hrowmem rfl rfl hvis happcount
    refine ⟨q, hqmem, ?_, ?_, ?_⟩
    · rw [hqd]; rfl
    · rw [hqt]; rfl
    · rw [hqc]
      exact (initialConductance_bounds cls.weight).2.1
  · intro cls2 h5
    unfold reinforcePathway
    rw [if_neg hu, if_pos h5]

/-- Witness for the amended C8: a fresh reinforcement for an empty store
    surfaces in the immediately loaded landscape with positive conductance. -/
theorem reinforce_then_load_roundtrip_witness :
    ∃ q ∈ (loadConductanceLandscape (fun _ => 1) 0 "u"
        (reinforcePathway 0 "u" (classifyMessage "i am afraid") []).2).1,
      q.dimension = (classifyMessage "i am afraid").dimension ∧ q.theme = "identity" ∧
      0 < q.conductance :=
  (reinforce_then_load_roundtrip (fun _ => 1) 0 "u" (classifyMessage "i am afraid") []
    (by decide) (by decide) (by decide) (by intro p hp; cases hp) "identity"
    (by with_unfolding_all decide) (by with_unfolding_all decide)).2.1 rfl

/-- Counterexample to C8 as stated: reinforcing a pathway already at the
    conductance ceiling 1 writes back exactly 1, so the loaded landscape
    shows no conductance strictly greater than before the reinforcement. -/
theorem reinforce_saturation_counterexample :
    ((reinforcePathway 0 "u" (classifyMessage "i am afraid")
        [⟨1, "u", "psychology", "identity", 1, 0, 3, 21, 0⟩]).1.map
          (fun p => p.conductance) = some 1) ∧
    (∀ q ∈ (loadConductanceLandscape (fun _ => 1) 0 "u"
        (reinforcePathway 0 "u" (classifyMessage "i am afraid")
          [⟨1, "u", "psychology", "identity", 1, 0, 3, 21, 0⟩]).2).1,
      ¬ (1 < q.conductance)) := by
  with_unfolding_all decide

/-! ## Claim C4 -/

/-- The real exponential at -1/10 lies inside the bracket [9/10, 10/11] used
    for the rational stand-in in the double-decay theorem, so the idealised
    Math.exp decay factor behaves like the stand-in: strictly between 0 and
    1. -/
theorem realExp_bracket : 9/10 ≤ Real.exp (-(1/10)) ∧ Real.exp (-(1/10)) ≤ 10/11 := by
  constructor
  · have h := Real.add_one_le_exp (-(1/10))
    linarith
  · have h1 : (11/10 : Real) ≤ Real.exp (1/10) := by
      have h := Real.add_one_le_exp (1/10)
      linarith
    have h2 : Real.exp (-(1/10)) = (Real.exp (1/10))⁻¹ := by
      rw [← Real.exp_neg]
    rw [h2]
    rw [show (10/11 : Real) = (11/10)⁻¹ by norm_num]
    exact inv_anti₀ (by norm_num) h1

/-- Claim C4 (code bug): reading the landscape twice in immediate succession,
    five days after the last reinforcement, decays the pathway twice. With a
    decay-factor stand-in of 9/10 for Math.exp at -0.1 (bracketed by
    realExp_bracket), the first read returns conductance 9/20 and the second
    81/200. The decay write never touches lastReinforced, so a second
    same-instant read applies the full decay again. -/
theorem double_decay_on_reread :
    ((loadConductanceLandscape (fun _ => 9/10) 432000000 "u"
        [⟨1, "u", "psychology", "shame", 1/2, 0, 3, 21, 0⟩]).1.map (fun q => q.conductance)
      = [9/20]) ∧
    ((loadConductanceLandscape (fun _ => 9/10) 432000000 "u"
        (loadConductanceLandscape (fun _ => 9/10) 432000000 "u"
          [⟨1, "u", "psychology", "shame", 1/2, 0, 3, 21, 0⟩]).2).1.map
            (fun q => q.conductance) = [81/200]) ∧
    (9/20 : Rat) ≠ 81/200 := by
  with_unfolding_all decide

end AlineSpec
